import Mathlib

/-!
Verification of the `SceneCollection.stack` / `SceneCollection.mosaic`
stacking-and-masking engine of the descarteslabs client SDK
(`descarteslabs/scenes/scenecollection.py`), against its natural-language
specification.

The embedding is shallow: numpy arrays become shape-annotated total index
functions over `Int` pixel values, Python exceptions become an explicit
error type (`PyErr`, one constructor per raise site), the raster-service
HTTP client becomes a pure function parameter, and the thread pool's
nondeterministic completion order becomes an explicit `completionOrder`
argument (a permutation of the item indices).  Classes that this
repository uses but whose files are not part of the source under
verification (`Scene`, `Collection.groupby`, the `Raster` client actually
imported by `scenecollection.py`) are modelled from the spec and marked as
such in their doc comments.
-/

namespace DL

/-- Errors. Each constructor embeds one concrete raise site of the code
(or a remote error mapped by it); the spec's error taxonomy (§7) names
are kept where they correspond:

* `emptyCollection` — `raise ValueError("This SceneCollection is empty")`,
  scenecollection.py:219 (stack) and :376 (mosaic); spec: `EmptyCollectionError`.
* `unsupportedAxis` — `raise NotImplementedError("bands_axis of 0 …")`,
  scenecollection.py:229; spec: `UnsupportedAxisError`.
* `invalidBandsAxis` — `raise ValueError("Invalid bands_axis; axis {} …")`,
  scenecollection.py:379.
* `invalidBands` — `ValueError` when band names are not given
  (`Scene._bands_to_list`, modelled from the spec).
* `alphaNotLast` — `raise ValueError("Alpha must be the last band …")`,
  scenecollection.py:391; spec: `AlphaOrderError`.
* `bandAbsent` — `ValueError` when a requested band is absent from a
  scene's catalog entry (`Scene._common_data_type_of_bands`, modelled
  from the spec §4.2).
* `sceneDtypeMismatch` — `ValueError` when two requested bands of one
  scene declare different dtypes (`Scene._common_data_type_of_bands`,
  modelled from the spec).
* `inconsistentDataType` — `raise ValueError("Bands must all have the
  same dtype in every Scene …")`, scenecollection.py:489; spec:
  `InconsistentDataTypeError`.
* `notFound` — re-raised `NotFoundError` with the offending ids,
  scenecollection.py:409.
* `badRequest` — re-raised `BadRequestError`, scenecollection.py:418.
* `maskWriteToNone` — the `TypeError` Python raises at
  scenecollection.py:298 when `mask[i]` is written while `mask` is still
  `None` (a masked item arrives after an unmasked first item).
* `shapeMismatch` — the numpy broadcast error raised when an item array
  written at scenecollection.py:297/300 does not match the shape the
  first completed item fixed at scenecollection.py:291. -/
inductive PyErr where
  | emptyCollection
  | unsupportedAxis
  | invalidBandsAxis (axis : Int)
  | invalidBands
  | alphaNotLast
  | bandAbsent (band : String)
  | sceneDtypeMismatch
  | inconsistentDataType
  | notFound (ids : List String)
  | badRequest
  | maskWriteToNone
  | shapeMismatch
  deriving DecidableEq, Repr

/-- Errors signalled by the remote raster service (spec §4.1/§6):
catalog-id lookup failure and parameter validation failure. -/
inductive RemoteErr where
  | notFoundRemote
  | badRequestRemote
  deriving DecidableEq, Repr

/-- Per-band catalog metadata of a scene: the declared pixel data type and
the optional `nodata` sentinel value (spec §3 "per-band metadata including
`nodata` value and data type"). -/
structure BandInfo where
  dtype : String
  nodata : Option Int
  deriving DecidableEq, Repr

/-- One satellite scene: catalog id plus its band catalog
(`scene.properties["id"]` and `scene.properties["bands"]`, an association
list from band name to `BandInfo`). -/
structure Scene where
  id : String
  bands : List (String × BandInfo)
  deriving DecidableEq, Repr

/-- Association-list lookup in a scene's band catalog
(`scene.properties["bands"][bandname]`, first binding wins). -/
def lookupBand : List (String × BandInfo) → String → Option BandInfo
  | [], _ => none
  | (n, b) :: rest, bn => if n = bn then some b else lookupBand rest bn

/-- A geographic context; its raster parameters are opaque to the
stacking/masking engine (spec §3 `GeoContext`, an external collaborator),
so they are embedded as an uninterpreted token. -/
structure GeoCtx where
  rasterParams : String
  deriving DecidableEq, Repr

/-- Raster metadata returned by the service alongside an array
(`raster_info`); opaque to the engine, embedded as a token. -/
def RasterInfo := String
deriving instance DecidableEq, Repr, Inhabited for RasterInfo

/-- A 2-dimensional numpy array of pixel values: shape `(s0, s1)` plus a
total index function (entries outside the shape are junk and never
relied upon). -/
structure Arr2 where
  s0 : Nat
  s1 : Nat
  data : Nat → Nat → Int

/-- A 3-dimensional numpy array of pixel values: shape `(s0, s1, s2)`
plus a total index function.  In the canonical (`order="gdal"`) layout
of `mosaic`, axis 0 is bands, axis 1 is y, axis 2 is x. -/
structure Arr3 where
  s0 : Nat
  s1 : Nat
  s2 : Nat
  data : Nat → Nat → Nat → Int

/-- The shape triple of a 3-d array (`arr.shape`). -/
def Arr3.shape3 (a : Arr3) : Nat × Nat × Nat := (a.s0, a.s1, a.s2)

/-- A boolean mask with the same indexing convention as `Arr3`. -/
def Mask3 := Nat → Nat → Nat → Bool

/-- The ndarray returned by the raster service: 2-d when a single band
was rasterized, 3-d otherwise (scenecollection.py:420 distinguishes the
two). -/
inductive NdArr where
  | d2 (a : Arr2)
  | d3 (a : Arr3)

/-- `arr[np.newaxis]` promotion of a 2-d response to 3 dimensions,
scenecollection.py:420-422 ("if only 1 band requested, still return a 3d
array"). -/
def promoteTo3d : NdArr → Arr3
  | .d3 a => a
  | .d2 a => { s0 := 1, s1 := a.s0, s2 := a.s1, data := fun _ j k => a.data j k }

/-- The request `SceneCollection.mosaic` builds for
`Raster.ndarray` (scenecollection.py:397-404): scene ids, `order="gdal"`,
the band list, `data_type=common_data_type`, and the GeoContext's raster
parameters.  The constant `scales=None` is omitted. -/
structure RasterRequest where
  inputs : List String
  order : String
  bands : List String
  dataType : Option String
  ctx : GeoCtx
  deriving DecidableEq, Repr

/-- Modelled from the spec: the Raster Service Client's array fetch
(spec §4.1 `fetch_array(...) -> (array, raster_info)`), whose actual
implementation (`descarteslabs.client.services.raster`, imported at
scenecollection.py:91) is not among the source files under verification.
One network round trip per invocation; may signal `NotFound` or
`BadRequest`. -/
def RasterClient := RasterRequest → Except RemoteErr (NdArr × RasterInfo)

/-- Modelled from the spec: `Scene._bands_to_list` (scene.py, not among
the source files).  Spec §4.3: "requested band names non-empty"; the
docstrings promise `ValueError` when "band names are not given".  The
string-splitting variant of the input is out of scope: the band list is
taken as a list. -/
def bandsToList (bands : List String) : Except PyErr (List String) :=
  if bands.isEmpty then .error .invalidBands else .ok bands

/-- Modelled from the spec: `Scene._common_data_type_of_bands` (scene.py,
not among the source files).  Spec §4.2: "`common_data_type(band_list) ->
DataType`, raising `ValueError` if a requested band is absent from this
scene's catalog entry"; spec §2: "computes a common data type across
requested bands".  Modelled as: look up each requested band's declared
dtype, error if one is absent, error if two requested bands of this scene
declare different dtypes, and return the common dtype (`none` only for an
empty band list, which `bandsToList` has already excluded).
`dtypeStep` is the per-band loop body, `Scene.commonDataTypeOfBands` the
fold over the requested bands. -/
def dtypeStep (s : Scene) (acc : Option String) (bn : String) :
    Except PyErr (Option String) :=
  match lookupBand s.bands bn with
  | none => .error (.bandAbsent bn)
  | some bi =>
    match acc with
    | none => .ok (some bi.dtype)
    | some c => if bi.dtype = c then .ok acc else .error .sceneDtypeMismatch

/-- See `dtypeStep`. -/
def Scene.commonDataTypeOfBands (s : Scene) (bands : List String) :
    Except PyErr (Option String) :=
  bands.foldlM (dtypeStep s) none

/-- An ordered collection of scenes (the `SceneCollection` item list;
the raster client reference is passed explicitly instead of being a
field). -/
structure SceneCollection where
  scenes : List Scene
  deriving DecidableEq, Repr

/-- `SceneCollection._common_data_type`, scenecollection.py:481-494:
compute every scene's common dtype for the requested bands (any per-scene
error propagates), then fold the per-scene results, raising the
dtype-inconsistency `ValueError` (spec: `InconsistentDataTypeError`) when
two scenes disagree.  The fold mirrors the Python loop: the accumulator
starts as `None`, the first result is adopted, and any later result that
compares unequal raises.  `commonStep` is the loop body. -/
def commonStep (acc d : Option String) : Except PyErr (Option String) :=
  if acc = none then .ok d
  else if d = acc then .ok acc
  else .error .inconsistentDataType

/-- See `commonStep`. -/
def SceneCollection.commonDataType (sc : SceneCollection) (bands : List String) :
    Except PyErr (Option String) := do
  let dts ← sc.scenes.mapM (fun s => s.commonDataTypeOfBands bands)
  dts.foldlM commonStep none

/-- First index of `"alpha"` in a band list (`bands.index("alpha")`,
scenecollection.py:385; `none` embeds the `ValueError` branch that
appends alpha instead). -/
def idxOfAlpha : List String → Option Nat
  | [] => none
  | b :: rest => if b = "alpha" then some 0 else (idxOfAlpha rest).map (· + 1)

/-- The `mask_alpha` band-list adjustment of `mosaic`,
scenecollection.py:383-392: when `mask_alpha` and alpha is absent, append
it and remember to drop it (`drop_alpha = True`); when alpha is present
anywhere but last, raise the alpha-order `ValueError` (spec:
`AlphaOrderError`); otherwise keep the list (`drop_alpha = False`). -/
def alphaAdjust (mask_alpha : Bool) (bands0 : List String) :
    Except PyErr (List String × Bool) :=
  if mask_alpha then
    match idxOfAlpha bands0 with
    | none => .ok (bands0 ++ ["alpha"], true)
    | some i =>
      if i ≠ bands0.length - 1 then .error .alphaNotLast else .ok (bands0, false)
  else .ok (bands0, false)

/-- The union-of-sentinels collection of `mosaic`,
scenecollection.py:437-441: for one band name, the `nodata` value each
contributing scene declares for it ("in case different products have
different nodata values for the same-named band").  The Python code
builds a `set` including `None`s and skips `None` at use; here the list
may hold duplicates and `none`s, which the mask fold below skips — the
resulting mask is identical.  A scene lacking the band would be a
`KeyError` in Python; that state is unreachable because
`_common_data_type` has already verified every requested band exists in
every scene, and is embedded as "no sentinel". -/
def bandNodataValues (scenes : List Scene) (bn : String) : List (Option Int) :=
  scenes.map (fun s =>
    match lookupBand s.bands bn with
    | some bi => bi.nodata
    | none => none)

/-- The inner sentinel loop of `mosaic`, scenecollection.py:444-446:
starting from an all-false row, `mask[i] |= arr[i] == nodata` for every
non-`None` sentinel. -/
def nodataRowMask (sentinels : List (Option Int)) (row : Nat → Nat → Int) :
    Nat → Nat → Bool :=
  sentinels.foldl
    (fun m nd =>
      match nd with
      | some v => fun j k => m j k || decide (row j k = v)
      | none => m)
    (fun _ _ => false)

/-- The per-band nodata mask of `mosaic`, scenecollection.py:443-446:
band row `i` of the mask is the sentinel fold for the `i`-th requested
band; rows beyond the band list stay all-false (the `np.zeros_like`
initialisation at line 431). -/
def nodataMask (scenes : List Scene) (bands2 : List String) (arr : Arr3) : Mask3 :=
  fun i j k =>
    match bands2.get? i with
    | some bn => nodataRowMask (bandNodataValues scenes bn) (arr.data i) j k
    | none => false

/-- The result of one rasterization: the pixel array, its optional
boolean mask (`np.ma.MaskedArray` iff masking was requested), and the
raster metadata iff `raster_info` was requested. -/
structure ItemOut where
  arr : Arr3
  mask : Option Mask3
  info : Option RasterInfo

instance : Inhabited ItemOut :=
  ⟨{ arr := { s0 := 0, s1 := 0, s2 := 0, data := fun _ _ _ => 0 },
     mask := none, info := none }⟩

/-- The masking stage of `mosaic`, scenecollection.py:424-451, applied in
the canonical band-major layout: capture the alpha plane (`arr[-1]`)
before slicing, drop the appended alpha band (`arr[:-1]`, `bands.pop(-1)`)
when it was not explicitly requested, build the nodata mask when
`mask_nodata`, then OR in `alpha == 0` over every band when `mask_alpha`,
and wrap the result as a masked array. -/
def maskStage (sc : SceneCollection) (nd : NdArr) (info : RasterInfo)
    (bands1 : List String) (drop_alpha mask_nodata mask_alpha raster_info : Bool) :
    ItemOut :=
  let arr0 := promoteTo3d nd
  let infoOut := if raster_info then some info else none
  if mask_nodata || mask_alpha then
    let alphaPlane := arr0.data (arr0.s0 - 1)
    let arr1 := if mask_alpha && drop_alpha then { arr0 with s0 := arr0.s0 - 1 } else arr0
    let bands2 := if mask_alpha && drop_alpha then bands1.dropLast else bands1
    let m1 : Mask3 :=
      if mask_nodata then nodataMask sc.scenes bands2 arr1 else fun _ _ _ => false
    let m2 : Mask3 :=
      if mask_alpha then fun i j k => m1 i j k || decide (alphaPlane j k = 0) else m1
    { arr := arr1, mask := some m2, info := infoOut }
  else
    { arr := arr0, mask := none, info := infoOut }

/-- Index transformation of `np.moveaxis(a, 0, dst)` on a 3-d array:
destination 1 (or its negative alias -2) puts the source axis 0 second,
destination 2 (or -1) puts it last. -/
def moveIdx3 {α : Type} (dst : Int) (f : Nat → Nat → Nat → α) : Nat → Nat → Nat → α :=
  if dst = 1 ∨ dst = -2 then fun i j k => f j i k
  else if dst = 2 ∨ dst = -1 then fun i j k => f k i j
  else f

/-- `np.moveaxis(arr, 0, dst)` on a 3-d array (numpy semantics, external
library): the shape is permuted accordingly and the entries are
re-indexed by `moveIdx3`. -/
def Arr3.moveaxisFrom0 (a : Arr3) (dst : Int) : Arr3 :=
  if dst = 1 ∨ dst = -2 then
    { s0 := a.s1, s1 := a.s0, s2 := a.s2, data := moveIdx3 dst a.data }
  else if dst = 2 ∨ dst = -1 then
    { s0 := a.s1, s1 := a.s2, s2 := a.s0, data := moveIdx3 dst a.data }
  else a

/-- `np.moveaxis` applied to a possibly masked rasterization result:
data and mask move together. -/
def ItemOut.moveaxisFrom0 (o : ItemOut) (dst : Int) : ItemOut :=
  { arr := o.arr.moveaxisFrom0 dst,
    mask := o.mask.map (fun m => moveIdx3 dst m),
    info := o.info }

/-- The bands-axis-independent body of `mosaic`,
scenecollection.py:381-451: band-list normalisation, alpha adjustment,
the pre-flight dtype consistency check, the single `Raster.ndarray`
network call (with `NotFoundError` re-raised naming the offending ids and
`BadRequestError` re-raised with the serialized request), 2-d promotion,
and the masking stage in the canonical band-major layout.  The first
component of the result lists the requests that reached the raster
client. -/
def SceneCollection.mosaicBody (client : RasterClient) (sc : SceneCollection)
    (bands : List String) (ctx : GeoCtx)
    (mask_nodata mask_alpha raster_info : Bool) :
    List RasterRequest × Except PyErr ItemOut :=
  match bandsToList bands with
  | .error e => ([], .error e)
  | .ok bands0 =>
    match alphaAdjust mask_alpha bands0 with
    | .error e => ([], .error e)
    | .ok (bands1, drop_alpha) =>
      match sc.commonDataType bands1 with
      | .error e => ([], .error e)
      | .ok cdt =>
        let req : RasterRequest :=
          { inputs := sc.scenes.map Scene.id, order := "gdal",
            bands := bands1, dataType := cdt, ctx := ctx }
        match client req with
        | .error .notFoundRemote => ([req], .error (.notFound (sc.scenes.map Scene.id)))
        | .error .badRequestRemote => ([req], .error .badRequest)
        | .ok (nd, info) =>
          ([req],
           .ok (maskStage sc nd info bands1 drop_alpha mask_nodata mask_alpha raster_info))

/-- `SceneCollection.mosaic`, scenecollection.py:309-458: the emptiness
check, the `-3 < bands_axis < 3` check, then the axis-independent body,
and — as the final step, after all masking — `np.moveaxis(arr, 0,
bands_axis)` when `bands_axis != 0` (scenecollection.py:453-454). -/
def SceneCollection.mosaic (client : RasterClient) (sc : SceneCollection)
    (bands : List String) (ctx : GeoCtx)
    (mask_nodata mask_alpha : Bool) (bands_axis : Int) (raster_info : Bool) :
    List RasterRequest × Except PyErr ItemOut :=
  if sc.scenes.length = 0 then ([], .error .emptyCollection)
  else if ¬(-3 < bands_axis ∧ bands_axis < 3) then
    ([], .error (.invalidBandsAxis bands_axis))
  else
    let body := sc.mosaicBody client bands ctx mask_nodata mask_alpha raster_info
    (body.1, body.2.map (fun out =>
      if bands_axis = 0 then out else out.moveaxisFrom0 bands_axis))

/-- Modelled from the spec: `Scene.ndarray` (scene.py, not among the
source files).  Spec §4.2: it "delegates to the Raster Service Client,
merging this scene's ID into the request"; spec §8: "`mosaic` on a
collection of one scene equals that scene's own single-item
rasterization (up to masking defaults)".  It is therefore embedded as
`mosaic` of the singleton collection, which applies the same alpha-order
precondition (spec §4.3) and nodata/alpha masking. -/
def Scene.ndarray (client : RasterClient) (s : Scene) (bands : List String)
    (ctx : GeoCtx) (mask_nodata mask_alpha : Bool) (bands_axis : Int)
    (raster_info : Bool) : List RasterRequest × Except PyErr ItemOut :=
  SceneCollection.mosaic client ⟨[s]⟩ bands ctx mask_nodata mask_alpha bands_axis raster_info

/-- Modelled from the spec: `Collection.groupby` (collection.py, not
among the source files), as used by `stack`'s `flatten` argument.  Spec
§4.3: "Group order becomes output order; within a group, original
collection order is preserved" and the scenes are "sorted by the
parameters to `flatten`"; spec §9: the grouping key is "a single function
type `Item -> Key`".  Embedded as: sort the distinct key values, then for
each key the scenes carrying it in original order. -/
def groupbyByKey (key : Scene → Nat) (scenes : List Scene) : List (List Scene) :=
  (((scenes.map key).insertionSort (· ≤ ·)).dedup).map
    (fun k => scenes.filter (fun s => key s = k))

/-- One item of a `stack` fan-out after flattening,
scenecollection.py:239: a singleton group contributes the scene itself
(fetched through `Scene.ndarray`), a larger group contributes a nested
`SceneCollection` (fetched through `mosaic`). -/
inductive StackItem where
  | one (s : Scene)
  | group (g : List Scene)

/-- The item list of a `stack` call, scenecollection.py:236-241: without
`flatten` every scene is its own item; with `flatten` the groups, each
collapsed to a plain scene when it is a singleton. -/
def stackItems (flatten : Option (Scene → Nat)) (scenes : List Scene) :
    List StackItem :=
  match flatten with
  | none => scenes.map .one
  | some key =>
    (groupbyByKey key scenes).map
      (fun g => match g with
        | [s] => .one s
        | g => .group g)

/-- The band list `stack`'s pre-flight dtype check runs on,
scenecollection.py:249-256: the requested bands, with `"alpha"` appended
when masking needs it and it was not requested (`pop_alpha`); the append
is undone before dispatch. -/
def stackCheckedBands (bands0 : List String) (mask_nodata mask_alpha : Bool) :
    List String :=
  if (mask_nodata || mask_alpha) && ¬ bands0.contains "alpha" then
    bands0 ++ ["alpha"]
  else bands0

/-- The per-item fetch closure of `stack`'s `data_loader`,
scenecollection.py:259-264: a nested collection goes through `mosaic`, a
single scene through `Scene.ndarray`, both with the adjusted
`bands_axis` and the shared flags. -/
def stackFetch (client : RasterClient) (bands0 : List String) (ctx : GeoCtx)
    (mask_nodata mask_alpha : Bool) (innerAxis : Int) (raster_info : Bool) :
    StackItem → List RasterRequest × Except PyErr ItemOut
  | .one s => s.ndarray client bands0 ctx mask_nodata mask_alpha innerAxis raster_info
  | .group g =>
    SceneCollection.mosaic client ⟨g⟩ bands0 ctx mask_nodata mask_alpha innerAxis raster_info

/-- The fetch result for the item at index `i` (the value
`future.result()` yields for slot `i`); indices outside the item list are
unreachable because the completion order is a permutation of the item
indices. -/
def stackFetchAt (client : RasterClient) (bands0 : List String) (ctx : GeoCtx)
    (mask_nodata mask_alpha : Bool) (innerAxis : Int) (raster_info : Bool)
    (items : List StackItem) (i : Nat) : Except PyErr ItemOut :=
  match items.get? i with
  | some it => (stackFetch client bands0 ctx mask_nodata mask_alpha innerAxis raster_info it).2
  | none => .error .shapeMismatch

/-- The mutable state of `stack`'s assembly loop,
scenecollection.py:285-303: the output buffer (`full_stack`, one
pre-assigned slot per item, `none` embedding the uninitialised
`np.empty` garbage), the lazily allocated mask buffer, the per-item
shape fixed by the first completed result (`stack_shape`), and the
`raster_infos` list.  The buffer dtype, also fixed by the first result,
is not modelled: the pre-flight dtype check makes every item share it. -/
structure AsmState where
  shape0 : Option (Nat × Nat × Nat)
  slots : List (Option Arr3)
  maskSlots : Option (List (Option Mask3))
  infos : Option (List (Option RasterInfo))

/-- One iteration of `stack`'s assembly loop for slot `i` with item
result `r`, scenecollection.py:285-300: record `raster_info`; on the
first completed result fix the per-item shape and allocate the mask
buffer iff that result is masked; then write the data (and mask) into
slot `i`.  A later result whose shape differs from the fixed one is the
numpy broadcast error (`shapeMismatch`); a masked result arriving when
the mask buffer was never allocated is the `TypeError` of `mask[i] = …`
with `mask = None` (`maskWriteToNone`). -/
def assembleStep (raster_info : Bool) (st : AsmState) (i : Nat) (r : ItemOut) :
    Except PyErr AsmState :=
  let st1 := if raster_info then { st with infos := st.infos.map (fun l => l.set i r.info) } else st
  let st2 :=
    match st1.shape0 with
    | none =>
      { st1 with
        shape0 := some r.arr.shape3,
        maskSlots :=
          if r.mask.isSome then some (List.replicate st1.slots.length none) else none }
    | some _ => st1
  if st2.shape0 = some r.arr.shape3 then
    match r.mask with
    | some m =>
      match st2.maskSlots with
      | none => .error .maskWriteToNone
      | some ms =>
        .ok { st2 with
                slots := st2.slots.set i (some r.arr),
                maskSlots := some (ms.set i (some m)) }
    | none => .ok { st2 with slots := st2.slots.set i (some r.arr) }
  else .error .shapeMismatch

/-- The assembly loop of `stack` over the completion order: each
completed future either propagates its exception (aborting the whole
stack, scenecollection.py:282) or is folded into the state by
`assembleStep`. -/
def asmLoop (raster_info : Bool) (fetchRes : Nat → Except PyErr ItemOut) :
    List Nat → AsmState → Except PyErr AsmState
  | [], st => .ok st
  | i :: rest, st =>
    match fetchRes i with
    | .error e => .error e
    | .ok r =>
      match assembleStep raster_info st i r with
      | .error e => .error e
      | .ok st' => asmLoop raster_info fetchRes rest st'

/-- The assembly state before any future completes: `n` empty slots, no
mask buffer, no shape, and — iff `raster_info` — the
`raster_infos = [None] * len(scenes)` list of scenecollection.py:246. -/
def initAsmState (raster_info : Bool) (n : Nat) : AsmState :=
  { shape0 := none,
    slots := List.replicate n none,
    maskSlots := none,
    infos := if raster_info then some (List.replicate n none) else none }

/-- The bands-axis each per-item call of `stack` receives,
scenecollection.py:233-234: positive axes are shifted down by one ("the
bands axis for each component ndarray call in the stack"), other axes
pass through. -/
def stackInnerAxis (bands_axis : Int) : Int :=
  if bands_axis > 0 then bands_axis - 1 else bands_axis

/-- `SceneCollection.stack`, scenecollection.py:126-307.  The explicit
`completionOrder` argument is the order in which the thread pool's
futures complete (`futures.as_completed`); the sequential fallback path
is the same loop at `completionOrder = List.range n`.  Pre-flight, in
source order: emptiness check; the `bands_axis == 0 or bands_axis == -4`
`NotImplementedError`; `bands_axis - 1` adjustment of positive axes for
the per-item calls; flattening; band-list normalisation; the dtype
consistency check on the (possibly alpha-extended) band list.  Only then
are the per-item fetches dispatched: the first component collects the
requests the dispatched items send to the raster client (in dispatch
order; the thread pool submits every item up front), the second is the
assembled result. -/
def SceneCollection.stack (client : RasterClient) (sc : SceneCollection)
    (bands : List String) (ctx : GeoCtx) (flatten : Option (Scene → Nat))
    (mask_nodata mask_alpha : Bool) (bands_axis : Int) (raster_info : Bool)
    (completionOrder : List Nat) :
    List RasterRequest × Except PyErr AsmState :=
  if sc.scenes.length = 0 then ([], .error .emptyCollection)
  else if bands_axis = 0 ∨ bands_axis = -4 then ([], .error .unsupportedAxis)
  else
    let innerAxis := stackInnerAxis bands_axis
    let items := stackItems flatten sc.scenes
    match bandsToList bands with
    | .error e => ([], .error e)
    | .ok bands0 =>
      match sc.commonDataType (stackCheckedBands bands0 mask_nodata mask_alpha) with
      | .error e => ([], .error e)
      | .ok _ =>
        let fetch := stackFetch client bands0 ctx mask_nodata mask_alpha innerAxis raster_info
        ((items.map (fun it => (fetch it).1)).flatten,
         asmLoop raster_info
           (stackFetchAt client bands0 ctx mask_nodata mask_alpha innerAxis raster_info items)
           completionOrder
           (initAsmState raster_info items.length))

/-- Invariant of the assembly loop after the slots in `proc` have been
written: processed slots hold their item's data/mask/info, unprocessed
slots are untouched, the per-item shape is fixed iff something was
processed, and the mask buffer exists iff the items are masked and
something was processed. -/
def AsmInv (ri : Bool) (n : Nat) (r : Nat → ItemOut) (sh : Nat × Nat × Nat)
    (masked : Bool) (proc : List Nat) (st : AsmState) : Prop :=
  st.slots.length = n ∧
  (∀ j, j < n → st.slots.get? j = some (if j ∈ proc then some (r j).arr else none)) ∧
  (st.shape0 = if proc = [] then none else some sh) ∧
  (masked = true → (proc = [] → st.maskSlots = none) ∧
    (proc ≠ [] → ∃ ml, st.maskSlots = some ml ∧ ml.length = n ∧
      ∀ j, j < n → ml.get? j = some (if j ∈ proc then (r j).mask else none))) ∧
  (masked = false → st.maskSlots = none) ∧
  (ri = true → ∃ il, st.infos = some il ∧ il.length = n ∧
    ∀ j, j < n → il.get? j = some (if j ∈ proc then (r j).info else none)) ∧
  (ri = false → st.infos = none)

/-- The fully assembled state: every slot written with its item's
result, in item order, whatever the completion order was. -/
def canonicalStack (ri : Bool) (n : Nat) (r : Nat → ItemOut)
    (sh : Nat × Nat × Nat) (masked : Bool) : AsmState :=
  { shape0 := some sh,
    slots := (List.range n).map (fun i => some (r i).arr),
    maskSlots :=
      if masked then some ((List.range n).map (fun i => (r i).mask)) else none,
    infos :=
      if ri then some ((List.range n).map (fun i => (r i).info)) else none }

/-! ### Concrete fixtures for witnesses and counterexamples -/

/-- A concrete scene: a `red` band with nodata sentinel 9 and an `alpha`
band, both `UInt16`. -/
def wScene : Scene :=
  ⟨"scene:1", [("red", ⟨"UInt16", some 9⟩), ("alpha", ⟨"UInt16", none⟩)]⟩

/-- A second concrete scene whose bands declare a different dtype than
`wScene`'s. -/
def wScene2 : Scene :=
  ⟨"scene:2", [("red", ⟨"Byte", some 3⟩), ("alpha", ⟨"Byte", none⟩)]⟩

/-- A concrete geographic context token. -/
def wCtx : GeoCtx := ⟨"ctx0"⟩

/-- A concrete 2-band service response: the red plane is 9 everywhere
(equal to `wScene`'s nodata sentinel), the alpha plane is 1. -/
def wArr : Arr3 := ⟨2, 1, 1, fun i _ _ => if i = 0 then 9 else 1⟩

/-- A concrete raster-client stub answering every request with `wArr`. -/
def wClient : RasterClient := fun _ => .ok (.d3 wArr, "meta0")

/-- A third concrete scene, dtype-compatible with `wScene`. -/
def wScene3 : Scene :=
  ⟨"scene:3", [("red", ⟨"UInt16", some 9⟩), ("alpha", ⟨"UInt16", none⟩)]⟩

/-- The per-item result every item of the concrete stack witnesses
fetches (each item is a one-scene rasterization answered by `wClient`,
so all items coincide). -/
def wOut : ItemOut :=
  match (SceneCollection.mosaic wClient ⟨[wScene]⟩ ["red"] wCtx true true 0 true).2 with
  | .ok o => o
  | .error _ => default

/-! ### Helper lemmas -/

theorem listGet_set_self {α : Type} (l : List α) (i : Nat) (a : α) (h : i < l.length) :
    (l.set i a).get? i = some a := by
  induction l generalizing i with
  | nil => simp at h
  | cons x xs ih =>
    cases i with
    | zero => rfl
    | succ j => simpa using ih j (by simpa using h)

theorem listGet_set_other {α : Type} (l : List α) (i j : Nat) (a : α) (h : j ≠ i) :
    (l.set i a).get? j = l.get? j := by
  induction l generalizing i j with
  | nil => rfl
  | cons x xs ih =>
    cases i with
    | zero =>
      cases j with
      | zero => exact absurd rfl h
      | succ k => rfl
    | succ i' =>
      cases j with
      | zero => rfl
      | succ k => simpa using ih i' k (fun hh => h (by rw [hh]))

theorem listGet_replicate {α : Type} (n i : Nat) (a : α) (h : i < n) :
    (List.replicate n a).get? i = some a := by
  induction n generalizing i with
  | zero => simp at h
  | succ m ih =>
    cases i with
    | zero => rfl
    | succ j =>
      rw [List.replicate_succ]
      exact ih j (by omega)

theorem exceptBind_error {ε α β : Type} (e : ε) (g : α → Except ε β) :
    (Except.error e >>= g) = Except.error e := rfl

theorem exceptBind_ok {ε α β : Type} (a : α) (g : α → Except ε β) :
    (Except.ok a >>= g) = g a := rfl

theorem exceptPure {ε α : Type} (a : α) : (pure a : Except ε α) = Except.ok a := rfl

theorem exceptMap_ok {ε α β : Type} (f : α → β) (a : α) :
    (Except.ok a : Except ε α).map f = Except.ok (f a) := rfl

theorem exceptMap_error {ε α β : Type} (f : α → β) (e : ε) :
    (Except.error e : Except ε α).map f = Except.error e := rfl

/-- Errors produced by an Except-valued `foldlM` come from its step
function. -/
theorem foldlM_error_pred {α β : Type} (P : PyErr → Prop)
    (f : β → α → Except PyErr β)
    (hf : ∀ b a e, f b a = .error e → P e) :
    ∀ (l : List α) (init : β) (e : PyErr), l.foldlM f init = .error e → P e := by
  intro l
  induction l with
  | nil => intro init e h; simp [List.foldlM, exceptPure] at h
  | cons x xs ih =>
    intro init e h
    rw [List.foldlM_cons] at h
    cases hfx : f init x with
    | error e' =>
      rw [hfx] at h
      rw [exceptBind_error] at h
      injection h with he
      exact he ▸ hf init x e' hfx
    | ok b =>
      rw [hfx] at h
      rw [exceptBind_ok] at h
      exact ih b e h

/-- Errors produced by an Except-valued `mapM` come from the mapped
function. -/
theorem mapM_error_pred {α β : Type} (P : PyErr → Prop)
    (g : α → Except PyErr β)
    (hg : ∀ a e, g a = .error e → P e) :
    ∀ (l : List α) (e : PyErr), l.mapM g = .error e → P e := by
  intro l
  induction l with
  | nil => intro e h; simp [List.mapM, List.mapM.loop, exceptPure] at h
  | cons x xs ih =>
    intro e h
    rw [List.mapM_cons] at h
    cases hgx : g x with
    | error e' =>
      rw [hgx] at h
      rw [exceptBind_error] at h
      injection h with he
      exact he ▸ hg x e' hgx
    | ok b =>
      rw [hgx] at h
      rw [exceptBind_ok] at h
      cases hxs : xs.mapM g with
      | error e' =>
        rw [hxs, exceptBind_error] at h
        injection h with he
        exact he ▸ ih e' hxs
      | ok bs =>
        rw [hxs, exceptBind_ok] at h
        simp [exceptPure] at h

/-- The only errors of the per-scene dtype resolution are a missing band
or a within-scene dtype mismatch. -/
theorem commonDataTypeOfBands_error_shape (s : Scene) (bands : List String)
    (e : PyErr) (h : s.commonDataTypeOfBands bands = .error e) :
    (∃ bn, e = .bandAbsent bn) ∨ e = .sceneDtypeMismatch := by
  refine foldlM_error_pred (fun e => (∃ bn, e = .bandAbsent bn) ∨ e = .sceneDtypeMismatch)
    _ ?_ bands none e h
  intro acc bn e' hstep
  unfold dtypeStep at hstep
  cases hlk : lookupBand s.bands bn with
  | none =>
    rw [hlk] at hstep
    injection hstep with he
    exact he ▸ Or.inl ⟨bn, rfl⟩
  | some bi =>
    rw [hlk] at hstep
    cases acc with
    | none => cases hstep
    | some c =>
      dsimp only at hstep
      by_cases hd : bi.dtype = c
      · rw [if_pos hd] at hstep; cases hstep
      · rw [if_neg hd] at hstep
        injection hstep with he
        exact he ▸ Or.inr rfl

/-- The only errors of `SceneCollection._common_data_type` are the
cross-scene inconsistency error and per-scene resolution errors. -/
theorem commonDataType_error_shape (sc : SceneCollection) (bands : List String)
    (e : PyErr) (h : sc.commonDataType bands = .error e) :
    e = .inconsistentDataType ∨ (∃ bn, e = .bandAbsent bn) ∨ e = .sceneDtypeMismatch := by
  unfold SceneCollection.commonDataType at h
  cases hm : sc.scenes.mapM (fun s => s.commonDataTypeOfBands bands) with
  | error e' =>
    rw [hm, exceptBind_error] at h
    injection h with he
    exact he ▸ Or.inr
      (mapM_error_pred _ _ (fun a e hh => commonDataTypeOfBands_error_shape a bands e hh) _ e' hm)
  | ok dts =>
    rw [hm, exceptBind_ok] at h
    refine Or.inl ?_
    refine foldlM_error_pred (fun e => e = .inconsistentDataType) _ ?_ dts none e h
    intro acc d e' hstep
    unfold commonStep at hstep
    by_cases h1 : acc = none
    · rw [if_pos h1] at hstep; cases hstep
    · by_cases h2 : d = acc
      · rw [if_neg h1, if_pos h2] at hstep; cases hstep
      · rw [if_neg h1, if_neg h2] at hstep
        injection hstep with he
        exact he.symm

theorem bandsToList_error_shape (bands : List String) (e : PyErr)
    (h : bandsToList bands = .error e) : e = .invalidBands := by
  unfold bandsToList at h
  by_cases hb : bands.isEmpty
  · rw [if_pos hb] at h; injection h with he; exact he.symm
  · rw [if_neg hb] at h; cases h

theorem alphaAdjust_error_shape (ma : Bool) (b0 : List String) (e : PyErr)
    (h : alphaAdjust ma b0 = .error e) : e = .alphaNotLast := by
  unfold alphaAdjust at h
  cases ma with
  | false => cases h
  | true =>
    simp only [if_true] at h
    cases hidx : idxOfAlpha b0 with
    | none => rw [hidx] at h; cases h
    | some i =>
      rw [hidx] at h
      dsimp only at h
      by_cases hi : i ≠ b0.length - 1
      · rw [if_pos hi] at h; injection h with he; exact he.symm
      · rw [if_neg hi] at h; cases h

/-- Every error of the axis-independent mosaic body is one of: missing
band names, alpha out of order, a dtype problem, or a re-raised remote
error — never the bands-axis `ValueError`. -/
theorem mosaicBody_error_shape (client : RasterClient) (sc : SceneCollection)
    (bands : List String) (ctx : GeoCtx) (mn ma ri : Bool) (e : PyErr)
    (h : (sc.mosaicBody client bands ctx mn ma ri).2 = .error e) :
    e = .invalidBands ∨ e = .alphaNotLast ∨ e = .inconsistentDataType ∨
      (∃ bn, e = .bandAbsent bn) ∨ e = .sceneDtypeMismatch ∨
      (∃ ids, e = .notFound ids) ∨ e = .badRequest := by
  unfold SceneCollection.mosaicBody at h
  cases hb : bandsToList bands with
  | error eb =>
    rw [hb] at h
    injection h with he
    exact Or.inl (he ▸ bandsToList_error_shape bands eb hb)
  | ok bands0 =>
    rw [hb] at h
    dsimp only at h
    cases ha : alphaAdjust ma bands0 with
    | error ea =>
      rw [ha] at h
      injection h with he
      exact Or.inr (Or.inl (he ▸ alphaAdjust_error_shape ma bands0 ea ha))
    | ok pr =>
      obtain ⟨bands1, drop_alpha⟩ := pr
      rw [ha] at h
      dsimp only at h
      cases hc : sc.commonDataType bands1 with
      | error ec =>
        rw [hc] at h
        injection h with he
        rcases he ▸ commonDataType_error_shape sc bands1 ec hc with h1 | h1 | h1
        · exact Or.inr (Or.inr (Or.inl h1))
        · exact Or.inr (Or.inr (Or.inr (Or.inl h1)))
        · exact Or.inr (Or.inr (Or.inr (Or.inr (Or.inl h1))))
      | ok cdt =>
        rw [hc] at h
        dsimp only at h
        cases hcl : client
            { inputs := sc.scenes.map Scene.id, order := "gdal",
              bands := bands1, dataType := cdt, ctx := ctx } with
        | error re =>
          cases re with
          | notFoundRemote =>
            rw [hcl] at h
            injection h with he
            exact Or.inr (Or.inr (Or.inr (Or.inr (Or.inr (Or.inl ⟨_, he.symm⟩)))))
          | badRequestRemote =>
            rw [hcl] at h
            injection h with he
            exact Or.inr (Or.inr (Or.inr (Or.inr (Or.inr (Or.inr he.symm)))))
        | ok pr2 =>
          obtain ⟨nd, info⟩ := pr2
          rw [hcl] at h
          cases h

/-!  ## The claims  -/

/-- **C8** (confirmed): on an empty `SceneCollection`, `stack` and
`mosaic` both raise the empty-collection error
(`ValueError("This SceneCollection is empty")`, the spec's
`EmptyCollectionError`), for every value of every other argument, and no
request reaches the raster client. -/
theorem empty_collection_raises (client : RasterClient) (bands : List String)
    (ctx : GeoCtx) (flatten : Option (Scene → Nat)) (mn ma : Bool)
    (axS axM : Int) (ri : Bool) (order : List Nat) :
    SceneCollection.stack client ⟨[]⟩ bands ctx flatten mn ma axS ri order
      = ([], .error .emptyCollection) ∧
    SceneCollection.mosaic client ⟨[]⟩ bands ctx mn ma axM ri
      = ([], .error .emptyCollection) :=
  ⟨rfl, rfl⟩

/-- **C9** counterexample: a `stack` call with `bands_axis = 0` on an
*empty* collection raises the empty-collection `ValueError` — the
emptiness check at scenecollection.py:218 runs before the axis check at
line 228 — so "for every stack call with bands_axis=0, the call raises
UnsupportedAxisError" is false as stated. -/
theorem stack_axis0_on_empty_not_axis_error :
    (SceneCollection.stack wClient ⟨[]⟩ ["red"] wCtx none true true 0 false []).2
        = .error .emptyCollection ∧
    (SceneCollection.stack wClient ⟨[]⟩ ["red"] wCtx none true true 0 false []).2
        ≠ .error .unsupportedAxis :=
  ⟨rfl, fun h => by cases h⟩

/-- **C9** (amended): for every `stack` call on a *non-empty* collection
with `bands_axis = 0`, the call raises the unsupported-axis error
(`NotImplementedError`, the spec's `UnsupportedAxisError`) and no request
reaches the raster client. -/
theorem stack_axis0_raises_nonempty (client : RasterClient) (sc : SceneCollection)
    (bands : List String) (ctx : GeoCtx) (flatten : Option (Scene → Nat))
    (mn ma ri : Bool) (order : List Nat)
    (hne : sc.scenes ≠ []) :
    SceneCollection.stack client sc bands ctx flatten mn ma 0 ri order
      = ([], .error .unsupportedAxis) := by
  unfold SceneCollection.stack
  rw [if_neg (by simpa using hne), if_pos (Or.inl rfl)]

/-- Witness for `stack_axis0_raises_nonempty` at a concrete one-scene
collection. -/
theorem stack_axis0_raises_nonempty_witness :
    SceneCollection.stack wClient ⟨[wScene]⟩ ["red"] wCtx none true true 0 false [0]
      = ([], .error .unsupportedAxis) :=
  stack_axis0_raises_nonempty wClient ⟨[wScene]⟩ ["red"] wCtx none true true false [0]
    (by decide)

/-- **C10** (confirmed): on a non-empty collection, `mosaic` rejects any
`bands_axis` outside the open interval (-3, 3) with the invalid-axis
`ValueError` before any network call (no request reaches the raster
client), and the axis check accepts every `bands_axis` strictly between
-3 and 3: no such call ever produces the invalid-axis error. -/
theorem mosaic_bands_axis_range_check (client : RasterClient)
    (sc : SceneCollection) (bands : List String) (ctx : GeoCtx)
    (mn ma : Bool) (b : Int) (ri : Bool)
    (hne : sc.scenes ≠ []) :
    (¬(-3 < b ∧ b < 3) →
      SceneCollection.mosaic client sc bands ctx mn ma b ri
        = ([], .error (.invalidBandsAxis b))) ∧
    ((-3 < b ∧ b < 3) →
      ∀ b' : Int, (SceneCollection.mosaic client sc bands ctx mn ma b ri).2
        ≠ .error (.invalidBandsAxis b')) := by
  constructor
  · intro hout
    unfold SceneCollection.mosaic
    rw [if_neg (by simpa using hne), if_pos hout]
  · intro hin b' h
    unfold SceneCollection.mosaic at h
    rw [if_neg (by simpa using hne), if_neg (not_not_intro hin)] at h
    dsimp only at h
    cases hbody : (sc.mosaicBody client bands ctx mn ma ri).2 with
    | error e =>
      rw [hbody, exceptMap_error] at h
      injection h with he
      rcases mosaicBody_error_shape client sc bands ctx mn ma ri e hbody with
        h1 | h1 | h1 | ⟨bn, h1⟩ | h1 | ⟨ids, h1⟩ | h1 <;> rw [h1] at he <;> cases he
    | ok out =>
      rw [hbody, exceptMap_ok] at h
      cases h

/-- Witness for `mosaic_bands_axis_range_check` at a concrete one-scene
collection and `bands_axis = 2`. -/
theorem mosaic_bands_axis_range_check_witness :
    (¬((-3 : Int) < 2 ∧ (2 : Int) < 3) →
      SceneCollection.mosaic wClient ⟨[wScene]⟩ ["red"] wCtx true true 2 false
        = ([], .error (.invalidBandsAxis 2))) ∧
    (((-3 : Int) < 2 ∧ (2 : Int) < 3) →
      ∀ b' : Int, (SceneCollection.mosaic wClient ⟨[wScene]⟩ ["red"] wCtx true true 2 false).2
        ≠ .error (.invalidBandsAxis b')) :=
  mosaic_bands_axis_range_check wClient ⟨[wScene]⟩ ["red"] wCtx true true 2 false
    (by decide)

/-- Unfolding of `mosaic` once the emptiness and axis checks pass. -/
theorem mosaic_ok_unfold (client : RasterClient) (sc : SceneCollection)
    (bands : List String) (ctx : GeoCtx) (mn ma ri : Bool) (b : Int)
    (hne : sc.scenes ≠ []) (hax : -3 < b ∧ b < 3) :
    SceneCollection.mosaic client sc bands ctx mn ma b ri
      = ((sc.mosaicBody client bands ctx mn ma ri).1,
         (sc.mosaicBody client bands ctx mn ma ri).2.map
           (fun out => if b = 0 then out else out.moveaxisFrom0 b)) := by
  unfold SceneCollection.mosaic
  rw [if_neg (by simpa using hne), if_neg (not_not_intro hax)]

/-- Unfolding of the mosaic body on the happy path: non-empty band list,
alpha adjustment and dtype check succeed, and the raster client answers
the request. -/
theorem mosaicBody_ok_unfold (client : RasterClient) (sc : SceneCollection)
    (bands : List String) (ctx : GeoCtx) (mn ma ri : Bool)
    (bands1 : List String) (drop_alpha : Bool) (cdt : Option String)
    (nd : NdArr) (info : RasterInfo)
    (hb : bands ≠ [])
    (ha : alphaAdjust ma bands = .ok (bands1, drop_alpha))
    (hc : sc.commonDataType bands1 = .ok cdt)
    (hcl : client { inputs := sc.scenes.map Scene.id, order := "gdal",
                    bands := bands1, dataType := cdt, ctx := ctx } = .ok (nd, info)) :
    sc.mosaicBody client bands ctx mn ma ri
      = ([{ inputs := sc.scenes.map Scene.id, order := "gdal",
            bands := bands1, dataType := cdt, ctx := ctx }],
         .ok (maskStage sc nd info bands1 drop_alpha mn ma ri)) := by
  unfold SceneCollection.mosaicBody
  have hbl : bandsToList bands = .ok bands := by
    unfold bandsToList
    rw [if_neg (by simpa using hb)]
  rw [hbl]
  dsimp only
  rw [ha]
  dsimp only
  rw [hc]
  dsimp only
  rw [hcl]

/-- **C7** (confirmed): a `mosaic` call with `mask_alpha = True` that
does not explicitly request `"alpha"` sends `bands ++ ["alpha"]` to the
service and returns an array of exactly the explicitly requested bands:
the alpha band is dropped after masking, the values of the remaining
bands untouched. -/
theorem mosaic_appended_alpha_dropped (client : RasterClient)
    (sc : SceneCollection) (bands : List String) (ctx : GeoCtx)
    (mn ri : Bool) (cdt : Option String) (arr : Arr3) (info : RasterInfo)
    (hne : sc.scenes ≠ [])
    (hb : bands ≠ [])
    (hal : idxOfAlpha bands = none)
    (hcdt : sc.commonDataType (bands ++ ["alpha"]) = .ok cdt)
    (hcl : client { inputs := sc.scenes.map Scene.id, order := "gdal",
                    bands := bands ++ ["alpha"], dataType := cdt, ctx := ctx }
           = .ok (.d3 arr, info))
    (hsh : arr.s0 = bands.length + 1) :
    (SceneCollection.mosaic client sc bands ctx mn true 0 ri).1
      = [{ inputs := sc.scenes.map Scene.id, order := "gdal",
           bands := bands ++ ["alpha"], dataType := cdt, ctx := ctx }] ∧
    ∃ out, (SceneCollection.mosaic client sc bands ctx mn true 0 ri).2 = .ok out ∧
      out.arr.s0 = bands.length ∧
      (∀ i j k, out.arr.data i j k = arr.data i j k) := by
  have ha : alphaAdjust true bands = .ok (bands ++ ["alpha"], true) := by
    unfold alphaAdjust
    rw [if_pos rfl, hal]
  rw [mosaic_ok_unfold client sc bands ctx mn true ri 0 hne (by norm_num),
      mosaicBody_ok_unfold client sc bands ctx mn true ri (bands ++ ["alpha"]) true cdt
        (.d3 arr) info hb ha hcdt hcl]
  refine ⟨rfl, maskStage sc (.d3 arr) info (bands ++ ["alpha"]) true mn true ri,
    by simp [exceptMap_ok], ?_, ?_⟩
  · show (maskStage sc (.d3 arr) info (bands ++ ["alpha"]) true mn true ri).arr.s0 = bands.length
    unfold maskStage
    rw [if_pos (by simp)]
    simp [promoteTo3d, hsh]
  · intro i j k
    show (maskStage sc (.d3 arr) info (bands ++ ["alpha"]) true mn true ri).arr.data i j k
      = arr.data i j k
    unfold maskStage
    rw [if_pos (by simp)]
    simp [promoteTo3d]

/-- Witness for `mosaic_appended_alpha_dropped`: one scene, one
requested band, a concrete 2-band service response. -/
theorem mosaic_appended_alpha_dropped_witness :
    (SceneCollection.mosaic wClient ⟨[wScene]⟩ ["red"] wCtx true true 0 false).1
      = [{ inputs := ["scene:1"], order := "gdal",
           bands := ["red", "alpha"], dataType := some "UInt16", ctx := wCtx }] ∧
    ∃ out, (SceneCollection.mosaic wClient ⟨[wScene]⟩ ["red"] wCtx true true 0 false).2
        = .ok out ∧
      out.arr.s0 = ["red"].length ∧
      (∀ i j k, out.arr.data i j k = wArr.data i j k) :=
  mosaic_appended_alpha_dropped wClient ⟨[wScene]⟩ ["red"] wCtx true false
    (some "UInt16") wArr "meta0" (by decide) (by decide) (by decide) rfl
    rfl (by decide)

/-- **C5** (confirmed): the `mosaic` result for any valid non-zero
`bands_axis` is exactly the band-major (`bands_axis = 0`) result with the
band axis moved — the move is the final step, applied after all masking
to data and mask alike — and `bands_axis = -1` relocates the band axis to
the innermost position while preserving every value and mask entry. -/
theorem mosaic_bands_axis_is_final_move (client : RasterClient)
    (sc : SceneCollection) (bands : List String) (ctx : GeoCtx)
    (mn ma ri : Bool) (b : Int)
    (hne : sc.scenes ≠ []) (hax : -3 < b ∧ b < 3) (hb0 : b ≠ 0) :
    (SceneCollection.mosaic client sc bands ctx mn ma b ri).1
      = (SceneCollection.mosaic client sc bands ctx mn ma 0 ri).1 ∧
    (SceneCollection.mosaic client sc bands ctx mn ma b ri).2
      = ((SceneCollection.mosaic client sc bands ctx mn ma 0 ri).2).map
          (fun out => out.moveaxisFrom0 b) ∧
    (∀ out, (SceneCollection.mosaic client sc bands ctx mn ma 0 ri).2 = .ok out →
      ∃ outneg, (SceneCollection.mosaic client sc bands ctx mn ma (-1) ri).2
          = .ok outneg ∧
        outneg.arr.s0 = out.arr.s1 ∧ outneg.arr.s1 = out.arr.s2 ∧
        outneg.arr.s2 = out.arr.s0 ∧
        (∀ i j k, outneg.arr.data j k i = out.arr.data i j k) ∧
        (∀ m, out.mask = some m →
          ∃ mneg, outneg.mask = some mneg ∧ ∀ i j k, mneg j k i = m i j k)) := by
  rw [mosaic_ok_unfold client sc bands ctx mn ma ri b hne hax,
      mosaic_ok_unfold client sc bands ctx mn ma ri 0 hne (by norm_num),
      mosaic_ok_unfold client sc bands ctx mn ma ri (-1) hne (by norm_num)]
  have hid : (sc.mosaicBody client bands ctx mn ma ri).2.map
      (fun out => if (0 : Int) = 0 then out else out.moveaxisFrom0 0)
      = (sc.mosaicBody client bands ctx mn ma ri).2 := by
    cases (sc.mosaicBody client bands ctx mn ma ri).2 with
    | error e => rw [exceptMap_error]
    | ok out => rw [exceptMap_ok, if_pos rfl]
  refine ⟨rfl, ?_, ?_⟩
  · dsimp only
    rw [hid]
    cases (sc.mosaicBody client bands ctx mn ma ri).2 with
    | error e => rw [exceptMap_error, exceptMap_error]
    | ok out => rw [exceptMap_ok, exceptMap_ok, if_neg hb0]
  · intro out hout
    dsimp only at hout
    rw [hid] at hout
    rw [hout]
    rw [exceptMap_ok, if_neg (by norm_num)]
    refine ⟨out.moveaxisFrom0 (-1), rfl, ?_, ?_, ?_, ?_, ?_⟩
    · show (out.arr.moveaxisFrom0 (-1)).s0 = out.arr.s1
      unfold Arr3.moveaxisFrom0
      rw [if_neg (by norm_num), if_pos (by norm_num)]
    · show (out.arr.moveaxisFrom0 (-1)).s1 = out.arr.s2
      unfold Arr3.moveaxisFrom0
      rw [if_neg (by norm_num), if_pos (by norm_num)]
    · show (out.arr.moveaxisFrom0 (-1)).s2 = out.arr.s0
      unfold Arr3.moveaxisFrom0
      rw [if_neg (by norm_num), if_pos (by norm_num)]
    · intro i j k
      show (out.arr.moveaxisFrom0 (-1)).data j k i = out.arr.data i j k
      unfold Arr3.moveaxisFrom0 moveIdx3
      rw [if_neg (by norm_num), if_pos (by norm_num)]
      dsimp only
      rw [if_neg (by norm_num), if_pos (by norm_num)]
    · intro m hm
      refine ⟨moveIdx3 (-1) m, ?_, ?_⟩
      · show (out.moveaxisFrom0 (-1)).mask = some (moveIdx3 (-1) m)
        unfold ItemOut.moveaxisFrom0
        rw [hm]
        rfl
      · intro i j k
        unfold moveIdx3
        rw [if_neg (by norm_num), if_pos (by norm_num)]

/-- Witness for `mosaic_bands_axis_is_final_move` at `bands_axis = 2`
on a concrete one-scene collection. -/
theorem mosaic_bands_axis_is_final_move_witness :
    (SceneCollection.mosaic wClient ⟨[wScene]⟩ ["red"] wCtx true true 2 false).1
      = (SceneCollection.mosaic wClient ⟨[wScene]⟩ ["red"] wCtx true true 0 false).1 ∧
    (SceneCollection.mosaic wClient ⟨[wScene]⟩ ["red"] wCtx true true 2 false).2
      = ((SceneCollection.mosaic wClient ⟨[wScene]⟩ ["red"] wCtx true true 0 false).2).map
          (fun out => out.moveaxisFrom0 2) ∧
    (∀ out, (SceneCollection.mosaic wClient ⟨[wScene]⟩ ["red"] wCtx true true 0 false).2
        = .ok out →
      ∃ outneg, (SceneCollection.mosaic wClient ⟨[wScene]⟩ ["red"] wCtx true true (-1) false).2
          = .ok outneg ∧
        outneg.arr.s0 = out.arr.s1 ∧ outneg.arr.s1 = out.arr.s2 ∧
        outneg.arr.s2 = out.arr.s0 ∧
        (∀ i j k, outneg.arr.data j k i = out.arr.data i j k) ∧
        (∀ m, out.mask = some m →
          ∃ mneg, outneg.mask = some mneg ∧ ∀ i j k, mneg j k i = m i j k)) :=
  mosaic_bands_axis_is_final_move wClient ⟨[wScene]⟩ ["red"] wCtx true true false 2
    (by decide) (by norm_num) (by norm_num)

/-- Accumulator form of the sentinel fold: the fold ORs the incoming
mask with a hit on any non-`None` sentinel. -/
theorem nodataRowMask_acc (row : Nat → Nat → Int) (j k : Nat) :
    ∀ (sentinels : List (Option Int)) (acc : Nat → Nat → Bool),
      (sentinels.foldl
        (fun m nd =>
          match nd with
          | some v => fun j k => m j k || decide (row j k = v)
          | none => m) acc) j k
      = (acc j k ||
          sentinels.any (fun nd =>
            match nd with
            | some v => decide (row j k = v)
            | none => false)) := by
  intro sentinels
  induction sentinels with
  | nil => intro acc; simp
  | cons nd rest ih =>
    intro acc
    rw [List.foldl_cons]
    cases nd with
    | none =>
      rw [ih]
      simp
    | some v =>
      rw [ih]
      simp [Bool.or_assoc]

/-- A pixel is hit by the sentinel fold iff its value equals one of the
non-`None` sentinels. -/
theorem nodataRowMask_spec (sentinels : List (Option Int))
    (row : Nat → Nat → Int) (j k : Nat) :
    nodataRowMask sentinels row j k = true ↔
      ∃ v : Int, some v ∈ sentinels ∧ row j k = v := by
  unfold nodataRowMask
  rw [nodataRowMask_acc]
  simp only [Bool.false_or, List.any_eq_true]
  constructor
  · rintro ⟨nd, hmem, hp⟩
    cases nd with
    | none => cases hp
    | some v => exact ⟨v, hmem, of_decide_eq_true hp⟩
  · rintro ⟨v, hmem, hv⟩
    exact ⟨some v, hmem, decide_eq_true hv⟩

/-- A non-`None` sentinel is collected for a band name iff some
contributing scene declares it as that band's nodata value. -/
theorem bandNodataValues_mem (scenes : List Scene) (bn : String) (v : Int) :
    some v ∈ bandNodataValues scenes bn ↔
      ∃ s ∈ scenes, ∃ bi, lookupBand s.bands bn = some bi ∧ bi.nodata = some v := by
  unfold bandNodataValues
  rw [List.mem_map]
  constructor
  · rintro ⟨s, hs, hv⟩
    cases hlk : lookupBand s.bands bn with
    | none => rw [hlk] at hv; cases hv
    | some bi => rw [hlk] at hv; exact ⟨s, hs, bi, hlk, hv⟩
  · rintro ⟨s, hs, bi, hlk, hv⟩
    refine ⟨s, hs, ?_⟩
    rw [hlk]
    exact hv

/-- Band row `i` of the nodata mask is set at a pixel iff the `i`-th
requested band exists and the pixel's value equals a nodata sentinel some
contributing scene declares for that band name. -/
theorem nodataMask_spec (scenes : List Scene) (bands2 : List String)
    (arr : Arr3) (i j k : Nat) :
    nodataMask scenes bands2 arr i j k = true ↔
      ∃ bn, bands2.get? i = some bn ∧
        ∃ s ∈ scenes, ∃ bi, lookupBand s.bands bn = some bi ∧
          ∃ v : Int, bi.nodata = some v ∧ arr.data i j k = v := by
  unfold nodataMask
  cases hg : bands2.get? i with
  | none => simp
  | some bn =>
    dsimp only
    rw [nodataRowMask_spec]
    constructor
    · rintro ⟨v, hmem, hv⟩
      obtain ⟨s, hs, bi, hlk, hnv⟩ := (bandNodataValues_mem scenes bn v).mp hmem
      exact ⟨bn, rfl, s, hs, bi, hlk, v, hnv, hv⟩
    · rintro ⟨bn', hbn', s, hs, bi, hlk, v, hnv, hv⟩
      injection hbn' with hbn'
      subst hbn'
      exact ⟨v, (bandNodataValues_mem scenes bn v).mpr ⟨s, hs, bi, hlk, hnv⟩, hv⟩

/-- The mask built by the masking stage with `mask_nodata = True`: a
pixel is set iff the nodata mask hits it, or `mask_alpha` is on and the
composited alpha plane is zero there. -/
theorem maskStage_spec (sc : SceneCollection) (arr : Arr3) (info : RasterInfo)
    (bands1 : List String) (da ma ri : Bool) :
    ∃ m, (maskStage sc (.d3 arr) info bands1 da true ma ri).mask = some m ∧
      (maskStage sc (.d3 arr) info bands1 da true ma ri).arr.data = arr.data ∧
      ∀ i j k, (m i j k = true ↔
        (nodataMask sc.scenes (if ma && da then bands1.dropLast else bands1)
            (if ma && da then { arr with s0 := arr.s0 - 1 } else arr) i j k = true
         ∨ (ma = true ∧ arr.data (arr.s0 - 1) j k = 0))) := by
  unfold maskStage
  rw [if_pos (by simp)]
  dsimp only [promoteTo3d]
  cases ma with
  | false =>
    refine ⟨_, rfl, rfl, ?_⟩
    intro i j k
    simp
  | true =>
    refine ⟨_, rfl, ?_, ?_⟩
    · cases da <;> rfl
    · intro i j k
      cases da <;> simp

/-- **C2** (confirmed): with `mask_nodata = True` a mosaic output pixel
of band `i` is nodata-masked iff its value equals a non-`None` nodata
sentinel that at least one contributing scene declares for the `i`-th
output band name (the union of sentinels over all scenes); with
`mask_alpha = True` every band is additionally masked wherever the
composited alpha plane is zero.  Stated in the canonical band-major
layout (`bands_axis = 0`); `mosaic_bands_axis_is_final_move` carries the
mask unchanged to other axes. -/
theorem mosaic_mask_characterization (client : RasterClient)
    (sc : SceneCollection) (bands : List String) (ctx : GeoCtx) (ma ri : Bool)
    (bands1 : List String) (drop_alpha : Bool) (cdt : Option String)
    (arr : Arr3) (info : RasterInfo)
    (hne : sc.scenes ≠ [])
    (hb : bands ≠ [])
    (ha : alphaAdjust ma bands = .ok (bands1, drop_alpha))
    (hcdt : sc.commonDataType bands1 = .ok cdt)
    (hcl : client { inputs := sc.scenes.map Scene.id, order := "gdal",
                    bands := bands1, dataType := cdt, ctx := ctx }
           = .ok (.d3 arr, info)) :
    ∃ out m, (SceneCollection.mosaic client sc bands ctx true ma 0 ri).2 = .ok out ∧
      out.mask = some m ∧
      out.arr.data = arr.data ∧
      ∀ i j k, (m i j k = true ↔
        ((∃ bn, (if ma && drop_alpha then bands1.dropLast else bands1).get? i = some bn ∧
            ∃ s ∈ sc.scenes, ∃ bi, lookupBand s.bands bn = some bi ∧
              ∃ v : Int, bi.nodata = some v ∧ arr.data i j k = v)
         ∨ (ma = true ∧ arr.data (arr.s0 - 1) j k = 0))) := by
  rw [mosaic_ok_unfold client sc bands ctx true ma ri 0 hne (by norm_num),
      mosaicBody_ok_unfold client sc bands ctx true ma ri bands1 drop_alpha cdt
        (.d3 arr) info hb ha hcdt hcl]
  dsimp only
  obtain ⟨m, hm, hdata, hiff⟩ := maskStage_spec sc arr info bands1 drop_alpha ma ri
  refine ⟨maskStage sc (.d3 arr) info bands1 drop_alpha true ma ri, m,
    by simp [exceptMap_ok], hm, hdata, ?_⟩
  intro i j k
  rw [hiff i j k, nodataMask_spec]
  have harr : (if ma && drop_alpha then { arr with s0 := arr.s0 - 1 } else arr).data
      = arr.data := by
    cases hq : ma && drop_alpha <;> simp
  rw [harr]

/-- Witness for `mosaic_mask_characterization`: one scene, band `red`
with sentinel 9, response value 9 → masked. -/
theorem mosaic_mask_characterization_witness :
    ∃ out m, (SceneCollection.mosaic wClient ⟨[wScene]⟩ ["red"] wCtx true true 0 false).2
        = .ok out ∧
      out.mask = some m ∧
      out.arr.data = wArr.data ∧
      ∀ i j k, (m i j k = true ↔
        ((∃ bn, (if true && true then (["red", "alpha"] : List String).dropLast
              else ["red", "alpha"]).get? i = some bn ∧
            ∃ s ∈ ({ scenes := [wScene] } : SceneCollection).scenes, ∃ bi,
              lookupBand s.bands bn = some bi ∧
              ∃ v : Int, bi.nodata = some v ∧ wArr.data i j k = v)
         ∨ (true = true ∧ wArr.data (wArr.s0 - 1) j k = 0))) :=
  mosaic_mask_characterization wClient ⟨[wScene]⟩ ["red"] wCtx true false
    ["red", "alpha"] true (some "UInt16") wArr "meta0"
    (by decide) (by decide) rfl rfl rfl

/-- Once the per-scene dtype fold holds a value, a successful fold keeps
it to the end. -/
theorem dtypeStep_fold_sticky (s : Scene) :
    ∀ (l : List String) (c : String) (res : Option String),
      l.foldlM (dtypeStep s) (some c) = .ok res → res = some c := by
  intro l
  induction l with
  | nil =>
    intro c res h
    rw [List.foldlM_nil] at h
    injection h with he
    exact he.symm
  | cons bn rest ih =>
    intro c res h
    rw [List.foldlM_cons] at h
    cases hlk : lookupBand s.bands bn with
    | none =>
      unfold dtypeStep at h
      rw [hlk] at h
      rw [exceptBind_error] at h
      cases h
    | some bi =>
      unfold dtypeStep at h
      rw [hlk] at h
      dsimp only at h
      by_cases hd : bi.dtype = c
      · rw [if_pos hd, exceptBind_ok] at h
        exact ih c res h
      · rw [if_neg hd, exceptBind_error] at h
        cases h

/-- A successful per-scene dtype fold: every folded band exists in the
scene's catalog and its declared dtype is the fold's result. -/
theorem dtypeStep_fold_mem (s : Scene) :
    ∀ (l : List String) (acc res : Option String),
      l.foldlM (dtypeStep s) acc = .ok res →
      ∀ b ∈ l, ∃ bi, lookupBand s.bands b = some bi ∧ res = some bi.dtype := by
  intro l
  induction l with
  | nil => intro acc res _ b hb; cases hb
  | cons bn rest ih =>
    intro acc res h b hb
    rw [List.foldlM_cons] at h
    cases hlk : lookupBand s.bands bn with
    | none =>
      unfold dtypeStep at h
      rw [hlk, exceptBind_error] at h
      cases h
    | some bi =>
      unfold dtypeStep at h
      rw [hlk] at h
      cases acc with
      | none =>
        dsimp only at h
        rw [exceptBind_ok] at h
        cases hb with
        | head =>
          exact ⟨bi, hlk, dtypeStep_fold_sticky s rest bi.dtype res h⟩
        | tail _ hb => exact ih (some bi.dtype) res h b hb
      | some c =>
        dsimp only at h
        by_cases hd : bi.dtype = c
        · rw [if_pos hd, exceptBind_ok] at h
          cases hb with
          | head =>
            refine ⟨bi, hlk, ?_⟩
            rw [hd]
            exact dtypeStep_fold_sticky s rest c res h
          | tail _ hb => exact ih (some c) res h b hb
        · rw [if_neg hd, exceptBind_error] at h
          cases h

/-- A scene's successful dtype resolution: every requested band exists
and carries the resolved dtype. -/
theorem commonDataTypeOfBands_ok_mem (s : Scene) (bands : List String)
    (res : Option String) (h : s.commonDataTypeOfBands bands = .ok res) :
    ∀ b ∈ bands, ∃ bi, lookupBand s.bands b = some bi ∧ res = some bi.dtype := by
  unfold Scene.commonDataTypeOfBands at h
  exact dtypeStep_fold_mem s bands none res h

/-- `mapM` over elementwise-succeeding computations succeeds, with
results related to the inputs in both directions. -/
theorem mapM_ok_exists {α β : Type} (g : α → Except PyErr β) :
    ∀ (l : List α), (∀ a ∈ l, ∃ b, g a = .ok b) →
      ∃ res, l.mapM g = .ok res ∧ (∀ a ∈ l, ∃ z ∈ res, g a = .ok z) ∧
        (∀ z ∈ res, ∃ a ∈ l, g a = .ok z) := by
  intro l
  induction l with
  | nil =>
    intro _
    refine ⟨[], by rw [List.mapM_nil]; rfl, ?_, ?_⟩
    · intro a ha; cases ha
    · intro z hz; cases hz
  | cons a rest ih =>
    intro hall
    obtain ⟨b, hb⟩ := hall a (List.mem_cons_self a rest)
    obtain ⟨res, hres, h1, h2⟩ := ih (fun x hx => hall x (List.mem_cons_of_mem a hx))
    refine ⟨b :: res, ?_, ?_, ?_⟩
    · rw [List.mapM_cons, hb, exceptBind_ok, hres, exceptBind_ok]
      rfl
    · intro x hx
      cases hx with
      | head => exact ⟨b, List.mem_cons_self b res, hb⟩
      | tail _ hx =>
        obtain ⟨z, hz, hgz⟩ := h1 x hx
        exact ⟨z, List.mem_cons_of_mem b hz, hgz⟩
    · intro z hz
      cases hz with
      | head => exact ⟨a, List.mem_cons_self a rest, hb⟩
      | tail _ hz =>
        obtain ⟨x, hx, hgx⟩ := h2 z hz
        exact ⟨x, List.mem_cons_of_mem a hx, hgx⟩

/-- Once the cross-scene fold holds a value, a successful fold keeps it
and every later element equals it. -/
theorem commonStep_fold_sticky :
    ∀ (l : List (Option String)) (c : String) (res : Option String),
      l.foldlM commonStep (some c) = .ok res →
      res = some c ∧ ∀ z ∈ l, z = some c := by
  intro l
  induction l with
  | nil =>
    intro c res h
    rw [List.foldlM_nil] at h
    injection h with he
    exact ⟨he.symm, fun z hz => absurd hz (List.not_mem_nil z)⟩
  | cons d rest ih =>
    intro c res h
    rw [List.foldlM_cons] at h
    unfold commonStep at h
    rw [if_neg (by simp)] at h
    by_cases hd : d = some c
    · rw [if_pos hd, exceptBind_ok] at h
      obtain ⟨h1, h2⟩ := ih c res h
      refine ⟨h1, ?_⟩
      intro z hz
      cases hz with
      | head => exact hd
      | tail _ hz => exact h2 z hz
    · rw [if_neg hd, exceptBind_error] at h
      cases h

/-- A successful cross-scene fold over all-`some` per-scene dtypes forces
every element to equal the result. -/
theorem commonStep_fold_all_eq :
    ∀ (l : List (Option String)) (res : Option String),
      l.foldlM commonStep none = .ok res →
      (∀ z ∈ l, z.isSome) → ∀ z ∈ l, z = res := by
  intro l
  cases l with
  | nil => intro res _ _ z hz; cases hz
  | cons d rest =>
    intro res h hsome z hz
    rw [List.foldlM_cons] at h
    unfold commonStep at h
    rw [if_pos rfl, exceptBind_ok] at h
    obtain ⟨a, ha⟩ := Option.isSome_iff_exists.mp (hsome d (List.mem_cons_self d rest))
    subst ha
    obtain ⟨h1, h2⟩ := commonStep_fold_sticky rest a res h
    cases hz with
    | head => exact h1.symm
    | tail _ hz => exact (h2 z hz).trans h1.symm

/-- When every scene resolves the checked band list but two scenes
disagree on one band's dtype, `_common_data_type` raises the
dtype-inconsistency error. -/
theorem commonDataType_mismatch_error (sc : SceneCollection)
    (checked : List String)
    (hok : ∀ s ∈ sc.scenes, ∃ d, s.commonDataTypeOfBands checked = .ok (some d))
    (b : String) (hbmem : b ∈ checked)
    (s t : Scene) (hs : s ∈ sc.scenes) (ht : t ∈ sc.scenes)
    (bi bj : BandInfo) (hlbi : lookupBand s.bands b = some bi)
    (hlbj : lookupBand t.bands b = some bj) (hdne : bi.dtype ≠ bj.dtype) :
    sc.commonDataType checked = .error .inconsistentDataType := by
  unfold SceneCollection.commonDataType
  obtain ⟨res, hres, h1, h2⟩ := mapM_ok_exists (fun s => s.commonDataTypeOfBands checked)
    sc.scenes (fun x hx => (hok x hx).elim (fun d hd => ⟨some d, hd⟩))
  rw [hres, exceptBind_ok]
  have hsome : ∀ z ∈ res, z.isSome := by
    intro z hz
    obtain ⟨x, hx, hgx⟩ := h2 z hz
    obtain ⟨d, hd⟩ := hok x hx
    rw [hd] at hgx
    injection hgx with he
    rw [← he]
    rfl
  obtain ⟨zs, hzs, hgzs⟩ := h1 s hs
  obtain ⟨zt, hzt, hgzt⟩ := h1 t ht
  obtain ⟨bi', hlbi', hzs'⟩ := commonDataTypeOfBands_ok_mem s checked zs hgzs b hbmem
  obtain ⟨bj', hlbj', hzt'⟩ := commonDataTypeOfBands_ok_mem t checked zt hgzt b hbmem
  rw [hlbi] at hlbi'
  injection hlbi' with hbi
  rw [hlbj] at hlbj'
  injection hlbj' with hbj
  subst hbi
  subst hbj
  cases hfold : res.foldlM commonStep none with
  | error e =>
    have he : e = .inconsistentDataType :=
      foldlM_error_pred (fun e => e = .inconsistentDataType) commonStep
        (fun acc d e' hstep => by
          unfold commonStep at hstep
          by_cases hq1 : acc = none
          · rw [if_pos hq1] at hstep; cases hstep
          · by_cases hq2 : d = acc
            · rw [if_neg hq1, if_pos hq2] at hstep; cases hstep
            · rw [if_neg hq1, if_neg hq2] at hstep
              injection hstep with he
              exact he.symm)
        res none e hfold
    rw [he]
  | ok r =>
    exfalso
    have hzs2 := commonStep_fold_all_eq res r hfold hsome zs hzs
    have hzt2 := commonStep_fold_all_eq res r hfold hsome zt hzt
    have hq : (some bi.dtype : Option String) = some bj.dtype :=
      hzs'.symm.trans (hzs2.trans (hzt2.symm.trans hzt'))
    injection hq with he
    exact hdne he

/-- Membership in the adjusted mosaic band list: the requested bands are
always carried over. -/
theorem alphaAdjust_ok_mem (ma : Bool) (bands bands1 : List String)
    (da : Bool) (h : alphaAdjust ma bands = .ok (bands1, da)) :
    ∀ x ∈ bands, x ∈ bands1 := by
  unfold alphaAdjust at h
  cases ma with
  | false =>
    rw [if_neg (by simp)] at h
    injection h with he
    injection he with he1 he2
    rw [← he1]
    exact fun x hx => hx
  | true =>
    rw [if_pos rfl] at h
    cases hidx : idxOfAlpha bands with
    | none =>
      rw [hidx] at h
      injection h with he
      injection he with he1 he2
      rw [← he1]
      exact fun x hx => List.mem_append_left _ hx
    | some i =>
      rw [hidx] at h
      dsimp only at h
      by_cases hi : i ≠ bands.length - 1
      · rw [if_pos hi] at h; cases h
      · rw [if_neg hi] at h
        injection h with he
        injection he with he1 he2
        rw [← he1]
        exact fun x hx => hx

/-- Membership in `stack`'s checked band list: the requested bands are
always carried over. -/
theorem stackCheckedBands_mem (bands : List String) (mn ma : Bool) :
    ∀ x ∈ bands, x ∈ stackCheckedBands bands mn ma := by
  unfold stackCheckedBands
  by_cases hc : (mn || ma) && ¬ bands.contains "alpha"
  · rw [if_pos hc]
    exact fun x hx => List.mem_append_left _ hx
  · rw [if_neg hc]
    exact fun x hx => hx

/-- **C3** (confirmed, with the spec's `InconsistentDataTypeError` being
the `ValueError` of scenecollection.py:489): when every contributing
scene resolves the checked band list but two scenes disagree on a
requested band's dtype, both `stack` and `mosaic` raise the
dtype-inconsistency error, and zero requests reach the raster client. -/
theorem dtype_mismatch_fails_before_network (client : RasterClient)
    (sc : SceneCollection) (bands : List String) (ctx : GeoCtx)
    (flatten : Option (Scene → Nat)) (mn ma ri : Bool) (axS axM : Int)
    (order : List Nat) (bands1 : List String) (dropm : Bool)
    (hne : sc.scenes ≠ [])
    (hb : bands ≠ [])
    (haxS : ¬(axS = 0 ∨ axS = -4))
    (haxM : -3 < axM ∧ axM < 3)
    (ham : alphaAdjust ma bands = .ok (bands1, dropm))
    (hokS : ∀ s ∈ sc.scenes, ∃ d,
      s.commonDataTypeOfBands (stackCheckedBands bands mn ma) = .ok (some d))
    (hokM : ∀ s ∈ sc.scenes, ∃ d, s.commonDataTypeOfBands bands1 = .ok (some d))
    (b : String) (hbmem : b ∈ bands)
    (s t : Scene) (hs : s ∈ sc.scenes) (ht : t ∈ sc.scenes)
    (bi bj : BandInfo) (hlbi : lookupBand s.bands b = some bi)
    (hlbj : lookupBand t.bands b = some bj) (hdne : bi.dtype ≠ bj.dtype) :
    SceneCollection.stack client sc bands ctx flatten mn ma axS ri order
      = ([], .error .inconsistentDataType) ∧
    SceneCollection.mosaic client sc bands ctx mn ma axM ri
      = ([], .error .inconsistentDataType) := by
  have hbl : bandsToList bands = .ok bands := by
    unfold bandsToList
    rw [if_neg (by simpa using hb)]
  constructor
  · unfold SceneCollection.stack
    rw [if_neg (by simpa using hne), if_neg haxS]
    dsimp only
    rw [hbl]
    dsimp only
    rw [commonDataType_mismatch_error sc (stackCheckedBands bands mn ma) hokS b
      (stackCheckedBands_mem bands mn ma b hbmem) s t hs ht bi bj hlbi hlbj hdne]
  · rw [mosaic_ok_unfold client sc bands ctx mn ma ri axM hne haxM]
    unfold SceneCollection.mosaicBody
    rw [hbl]
    dsimp only
    rw [ham]
    dsimp only
    rw [commonDataType_mismatch_error sc bands1 hokM b
      (alphaAdjust_ok_mem ma bands bands1 dropm ham b hbmem) s t hs ht bi bj hlbi hlbj hdne]
    dsimp only
    rw [exceptMap_error]

/-- Witness for `dtype_mismatch_fails_before_network`: two scenes whose
`red` bands declare `UInt16` and `Byte` respectively. -/
theorem dtype_mismatch_fails_before_network_witness :
    SceneCollection.stack wClient ⟨[wScene, wScene2]⟩ ["red"] wCtx none true true 1 false [0, 1]
      = ([], .error .inconsistentDataType) ∧
    SceneCollection.mosaic wClient ⟨[wScene, wScene2]⟩ ["red"] wCtx true true 0 false
      = ([], .error .inconsistentDataType) :=
  dtype_mismatch_fails_before_network wClient ⟨[wScene, wScene2]⟩ ["red"] wCtx none
    true true false 1 0 [0, 1] ["red", "alpha"] true
    (by decide) (by decide) (by decide) (by norm_num) rfl
    (by
      intro s hs
      cases hs with
      | head => exact ⟨"UInt16", rfl⟩
      | tail _ hs =>
        cases hs with
        | head => exact ⟨"Byte", rfl⟩
        | tail _ hs => cases hs)
    (by
      intro s hs
      cases hs with
      | head => exact ⟨"UInt16", rfl⟩
      | tail _ hs =>
        cases hs with
        | head => exact ⟨"Byte", rfl⟩
        | tail _ hs => cases hs)
    "red" (by decide) wScene wScene2 (by decide) (by decide)
    ⟨"UInt16", some 9⟩ ⟨"Byte", some 3⟩ (by decide) (by decide) (by decide)

theorem idxOfAlpha_some_ne_nil (bands : List String) (i0 : Nat)
    (h : idxOfAlpha bands = some i0) : bands ≠ [] := by
  intro hnil
  rw [hnil] at h
  cases h

theorem alphaAdjust_error_of_idx (bands0 : List String) (i0 : Nat)
    (hidx : idxOfAlpha bands0 = some i0) (hlast : i0 ≠ bands0.length - 1) :
    alphaAdjust true bands0 = .error .alphaNotLast := by
  unfold alphaAdjust
  rw [if_pos rfl, hidx]
  dsimp only
  rw [if_pos hlast]

/-- When alpha is explicitly requested at a non-last position and
`mask_alpha` is on, the mosaic body stops at the alpha-order error with
no request issued. -/
theorem mosaicBody_alpha_error (client : RasterClient) (sc : SceneCollection)
    (bands0 : List String) (ctx : GeoCtx) (mn ri : Bool) (i0 : Nat)
    (hidx : idxOfAlpha bands0 = some i0) (hlast : i0 ≠ bands0.length - 1) :
    sc.mosaicBody client bands0 ctx mn true ri = ([], .error .alphaNotLast) := by
  have hb : bands0 ≠ [] := idxOfAlpha_some_ne_nil bands0 i0 hidx
  unfold SceneCollection.mosaicBody
  rw [show bandsToList bands0 = .ok bands0 from by
    unfold bandsToList
    rw [if_neg (by simpa using hb)]]
  dsimp only
  rw [alphaAdjust_error_of_idx bands0 i0 hidx hlast]

/-- `mosaic` with `mask_alpha = True` and alpha explicitly at a non-last
position raises the alpha-order error (once the earlier emptiness and
axis checks pass), with no request issued. -/
theorem mosaic_alpha_error (client : RasterClient) (sc : SceneCollection)
    (bands0 : List String) (ctx : GeoCtx) (mn ri : Bool) (ax : Int) (i0 : Nat)
    (hne : sc.scenes ≠ []) (hax : -3 < ax ∧ ax < 3)
    (hidx : idxOfAlpha bands0 = some i0) (hlast : i0 ≠ bands0.length - 1) :
    SceneCollection.mosaic client sc bands0 ctx mn true ax ri
      = ([], .error .alphaNotLast) := by
  rw [mosaic_ok_unfold client sc bands0 ctx mn true ri ax hne hax,
      mosaicBody_alpha_error client sc bands0 ctx mn ri i0 hidx hlast]
  rw [exceptMap_error]

theorem groupbyByKey_mem_ne_nil (key : Scene → Nat) (scenes : List Scene)
    (g : List Scene) (hg : g ∈ groupbyByKey key scenes) : g ≠ [] := by
  unfold groupbyByKey at hg
  obtain ⟨k, hk, hgk⟩ := List.mem_map.mp hg
  have hk2 : k ∈ scenes.map key := by
    have hperm := List.perm_insertionSort (α := Nat) (· ≤ ·) (scenes.map key)
    exact hperm.mem_iff.mp (List.mem_dedup.mp hk)
  obtain ⟨s, hs, hks⟩ := List.mem_map.mp hk2
  intro hnil
  rw [← hgk] at hnil
  have hmem : s ∈ scenes.filter (fun s => key s = k) := by
    rw [List.mem_filter]
    exact ⟨hs, by simp [hks]⟩
  rw [hnil] at hmem
  cases hmem

theorem stackItems_ne_nil (flatten : Option (Scene → Nat)) (scenes : List Scene)
    (h : scenes ≠ []) : stackItems flatten scenes ≠ [] := by
  unfold stackItems
  cases flatten with
  | none => simpa using h
  | some key =>
    intro hmap
    rw [List.map_eq_nil_iff] at hmap
    unfold groupbyByKey at hmap
    rw [List.map_eq_nil_iff, List.dedup_eq_nil] at hmap
    have hperm := List.perm_insertionSort (α := Nat) (· ≤ ·) (scenes.map key)
    rw [hmap] at hperm
    exact h (by simpa using hperm.symm.eq_nil)

/-- Every item of a `stack` fan-out is a plain scene or a non-empty
group. -/
theorem stackItems_good (flatten : Option (Scene → Nat)) (scenes : List Scene) :
    ∀ it ∈ stackItems flatten scenes,
      (match it with | .one _ => True | .group g => g ≠ []) := by
  intro it hit
  unfold stackItems at hit
  cases flatten with
  | none =>
    obtain ⟨s, _, rfl⟩ := List.mem_map.mp hit
    trivial
  | some key =>
    obtain ⟨g, hg, rfl⟩ := List.mem_map.mp hit
    have hgne := groupbyByKey_mem_ne_nil key scenes g hg
    cases g with
    | nil => exact absurd rfl hgne
    | cons a rest =>
      cases rest with
      | nil => trivial
      | cons b rest2 => exact List.cons_ne_nil a (b :: rest2)

/-- Any single fetched item fails with the alpha-order error when alpha
is explicitly requested at a non-last position and `mask_alpha` is on. -/
theorem stackFetch_alpha_error (client : RasterClient) (bands0 : List String)
    (ctx : GeoCtx) (mn ri : Bool) (innerAxis : Int) (it : StackItem) (i0 : Nat)
    (hgood : match it with | .one _ => True | .group g => g ≠ [])
    (hax : -3 < innerAxis ∧ innerAxis < 3)
    (hidx : idxOfAlpha bands0 = some i0) (hlast : i0 ≠ bands0.length - 1) :
    (stackFetch client bands0 ctx mn true innerAxis ri it).2
      = .error .alphaNotLast := by
  cases it with
  | one s =>
    show (Scene.ndarray client s bands0 ctx mn true innerAxis ri).2 = _
    unfold Scene.ndarray
    rw [mosaic_alpha_error client ⟨[s]⟩ bands0 ctx mn ri innerAxis i0
      (by simp) hax hidx hlast]
  | group g =>
    show (SceneCollection.mosaic client ⟨g⟩ bands0 ctx mn true innerAxis ri).2 = _
    rw [mosaic_alpha_error client ⟨g⟩ bands0 ctx mn ri innerAxis i0
      (by simpa using hgood) hax hidx hlast]

theorem stackFetchAt_alpha_error (client : RasterClient) (bands0 : List String)
    (ctx : GeoCtx) (mn ri : Bool) (innerAxis : Int)
    (flatten : Option (Scene → Nat)) (scenes : List Scene) (i i0 : Nat)
    (hi : i < (stackItems flatten scenes).length)
    (hax : -3 < innerAxis ∧ innerAxis < 3)
    (hidx : idxOfAlpha bands0 = some i0) (hlast : i0 ≠ bands0.length - 1) :
    stackFetchAt client bands0 ctx mn true innerAxis ri (stackItems flatten scenes) i
      = .error .alphaNotLast := by
  unfold stackFetchAt
  rw [List.get?_eq_get hi]
  exact stackFetch_alpha_error client bands0 ctx mn ri innerAxis _ i0
    (stackItems_good flatten scenes _ (List.get_mem _ _ _)) hax hidx hlast

/-- **C4** counterexample: with `mask_alpha = False` (and
`mask_nodata = False`), a `mosaic` call whose band list has `"alpha"`
first — not last — completes successfully: the alpha-order check of
scenecollection.py:383-391 runs only under `mask_alpha`, so the claim
"for every stack/mosaic call with alpha explicitly at a non-last
position, the call raises AlphaOrderError" is false as stated. -/
theorem alpha_not_last_ok_when_mask_alpha_off :
    ∃ out, (SceneCollection.mosaic wClient ⟨[wScene]⟩ ["alpha", "red"] wCtx
        false false 0 false).2 = .ok out ∧
    (SceneCollection.mosaic wClient ⟨[wScene]⟩ ["alpha", "red"] wCtx
        false false 0 false).2 ≠ .error .alphaNotLast :=
  ⟨_, rfl, fun h => by cases h⟩

/-- **C4** (amended): with `mask_alpha = True`, once the checks that
precede the alpha-order validation pass (collection non-empty, bands_axis
in range, and — for `stack`, whose per-item calls perform the check — the
pre-flight dtype check), a band list with `"alpha"` explicitly at a
non-last position makes `mosaic` raise the alpha-order error with no
request issued, and makes `stack` propagate the same error from its very
first completed item. -/
theorem alpha_not_last_raises_with_mask_alpha (client : RasterClient)
    (sc : SceneCollection) (bands : List String) (ctx : GeoCtx)
    (flatten : Option (Scene → Nat)) (mn ri : Bool) (axS axM : Int)
    (order : List Nat) (cdt : Option String) (i0 : Nat)
    (hne : sc.scenes ≠ [])
    (hidx : idxOfAlpha bands = some i0) (hlast : i0 ≠ bands.length - 1)
    (haxS : ¬(axS = 0 ∨ axS = -4))
    (hinner : -3 < stackInnerAxis axS ∧ stackInnerAxis axS < 3)
    (haxM : -3 < axM ∧ axM < 3)
    (hcdt : sc.commonDataType (stackCheckedBands bands mn true) = .ok cdt)
    (hlt : ∀ i ∈ order, i < (stackItems flatten sc.scenes).length)
    (hall : ∀ i, i < (stackItems flatten sc.scenes).length → i ∈ order) :
    (SceneCollection.stack client sc bands ctx flatten mn true axS ri order).2
      = .error .alphaNotLast ∧
    SceneCollection.mosaic client sc bands ctx mn true axM ri
      = ([], .error .alphaNotLast) := by
  have hbne : bands ≠ [] := idxOfAlpha_some_ne_nil bands i0 hidx
  have hbl : bandsToList bands = .ok bands := by
    unfold bandsToList
    rw [if_neg (by simpa using hbne)]
  refine ⟨?_, mosaic_alpha_error client sc bands ctx mn ri axM i0 hne haxM hidx hlast⟩
  unfold SceneCollection.stack
  rw [if_neg (by simpa using hne), if_neg haxS]
  dsimp only
  rw [hbl]
  dsimp only
  rw [hcdt]
  dsimp only
  have hn : 0 < (stackItems flatten sc.scenes).length :=
    List.length_pos.mpr (stackItems_ne_nil flatten sc.scenes hne)
  cases horder : order with
  | nil => exact absurd (horder ▸ hall 0 hn) (List.not_mem_nil 0)
  | cons i rest =>
    have hi : i < (stackItems flatten sc.scenes).length :=
      hlt i (horder ▸ List.mem_cons_self i rest)
    unfold asmLoop
    rw [stackFetchAt_alpha_error client bands ctx mn ri (stackInnerAxis axS)
      flatten sc.scenes i i0 hi hinner hidx hlast]

/-- Witness for `alpha_not_last_raises_with_mask_alpha`: one scene,
bands `["alpha", "red"]`. -/
theorem alpha_not_last_raises_with_mask_alpha_witness :
    (SceneCollection.stack wClient ⟨[wScene]⟩ ["alpha", "red"] wCtx none true true
        1 false [0]).2 = .error .alphaNotLast ∧
    SceneCollection.mosaic wClient ⟨[wScene]⟩ ["alpha", "red"] wCtx true true 0 false
      = ([], .error .alphaNotLast) :=
  alpha_not_last_raises_with_mask_alpha wClient ⟨[wScene]⟩ ["alpha", "red"] wCtx none
    true false 1 0 [0] (some "UInt16") 0
    (by decide) (by decide) (by decide) (by decide)
    (by unfold stackInnerAxis; norm_num) (by norm_num)
    rfl (by decide) (by decide)

/-- Writing slot `i` of a buffer that is canonical for `proc` makes it
canonical for `i :: proc`. -/
theorem listSet_procInv {α : Type} (n : Nat) (g : Nat → α) (d : α)
    (proc : List Nat) (l : List α) (i : Nat)
    (hlen : l.length = n) (hi : i < n)
    (hl : ∀ j, j < n → l.get? j = some (if j ∈ proc then g j else d)) :
    (l.set i (g i)).length = n ∧
    ∀ j, j < n → (l.set i (g i)).get? j
      = some (if j ∈ i :: proc then g j else d) := by
  refine ⟨by rw [List.length_set]; exact hlen, ?_⟩
  intro j hj
  by_cases hji : j = i
  · subst hji
    rw [listGet_set_self _ _ _ (by rw [hlen]; exact hj)]
    rw [if_pos (List.mem_cons_self j proc)]
  · rw [listGet_set_other _ _ _ _ hji]
    rw [hl j hj]
    by_cases hjp : j ∈ proc
    · rw [if_pos hjp, if_pos (List.mem_cons_of_mem i hjp)]
    · rw [if_neg hjp, if_neg (by simp [List.mem_cons, hji, hjp])]

/-- A `replicate` buffer is canonical for the empty processed set. -/
theorem listReplicate_procInv {α : Type} (n : Nat) (g : Nat → α) (d : α) :
    ∀ j, j < n → (List.replicate n d).get? j
      = some (if j ∈ ([] : List Nat) then g j else d) := by
  intro j hj
  rw [if_neg (List.not_mem_nil j)]
  exact listGet_replicate n j d hj

/-- The initial assembly state satisfies the invariant for the empty
processed set. -/
theorem asmInv_init (ri : Bool) (n : Nat) (r : Nat → ItemOut)
    (sh : Nat × Nat × Nat) (masked : Bool) :
    AsmInv ri n r sh masked [] (initAsmState ri n) := by
  unfold AsmInv initAsmState
  refine ⟨by rw [List.length_replicate], ?_, by rw [if_pos rfl], ?_, ?_, ?_, ?_⟩
  · exact listReplicate_procInv n (fun j => some ((r j).arr)) none
  · exact fun _ => ⟨fun _ => rfl, fun hne => absurd rfl hne⟩
  · exact fun _ => rfl
  · intro hri
    subst hri
    refine ⟨List.replicate n none, by rw [if_pos rfl], by rw [List.length_replicate], ?_⟩
    exact listReplicate_procInv n (fun j => (r j).info) none
  · intro hri
    subst hri
    rfl

/-- One assembly iteration preserves the invariant: writing slot `i`
with its own item's successful result extends the processed set by `i`. -/
theorem asmInv_step (ri : Bool) (n : Nat) (r : Nat → ItemOut)
    (sh : Nat × Nat × Nat) (masked : Bool) (proc : List Nat) (st : AsmState) (i : Nat)
    (hInv : AsmInv ri n r sh masked proc st)
    (hi : i < n) (hnin : i ∉ proc)
    (hsh : (r i).arr.shape3 = sh)
    (hm : ((r i).mask).isSome = masked) :
    ∃ st', assembleStep ri st i (r i) = .ok st' ∧
      AsmInv ri n r sh masked (i :: proc) st' := by
  obtain ⟨hlen, hslots, hshape, hmaskT, hmaskF, hinfoT, hinfoF⟩ := hInv
  obtain ⟨sh0, slots, ms, infos⟩ := st
  dsimp only at hlen hslots hshape hmaskT hmaskF hinfoT hinfoF
  obtain ⟨hsl, hslget⟩ :=
    listSet_procInv n (fun j => some ((r j).arr)) none proc slots i hlen hi hslots
  have hcons : (i :: proc) ≠ [] := List.cons_ne_nil i proc
  -- canonical fresh mask buffer
  have hrep : ∀ j, j < n → (List.replicate slots.length (none : Option Mask3)).get? j
      = some (if j ∈ ([] : List Nat) then (r j).mask else none) := by
    intro j hj
    rw [if_neg (List.not_mem_nil j)]
    exact listGet_replicate slots.length j none (by rw [hlen]; exact hj)
  cases ri with
  | true =>
    obtain ⟨il, hil, hilen, hilget⟩ := hinfoT rfl
    subst hil
    obtain ⟨hilen2, hilget2⟩ :=
      listSet_procInv n (fun j => (r j).info) none proc il i hilen hi hilget
    by_cases hproc : proc = []
    · subst hproc
      rw [if_pos rfl] at hshape
      subst hshape
      cases hmrm : (r i).mask with
      | some m =>
        rw [hmrm] at hm
        have hmasked : masked = true := hm.symm
        subst hmasked
        obtain ⟨hms, _⟩ := hmaskT rfl
        have hmsnone : ms = none := hms rfl
        subst hmsnone
        obtain ⟨hmlen2, hmlget2⟩ :=
          listSet_procInv n (fun j => (r j).mask) none []
            (List.replicate slots.length none) i
            (by rw [List.length_replicate]; exact hlen) hi hrep
        rw [hmrm] at hmlen2 hmlget2
        have heq : assembleStep true
            { shape0 := none, slots := slots, maskSlots := none,
              infos := some il } i (r i)
            = Except.ok
              { shape0 := some (r i).arr.shape3,
                slots := slots.set i (some (r i).arr),
                maskSlots := some ((List.replicate slots.length none).set i (some m)),
                infos := some (il.set i (r i).info) } := by
          simp [assembleStep, hmrm, hsh]
        refine ⟨_, heq, ?_⟩
        refine ⟨hsl, hslget, ?_, ?_, ?_, ?_, ?_⟩
        · dsimp only
          rw [if_neg hcons, hsh]
        · intro _
          refine ⟨fun habs => absurd habs hcons, fun _ => ?_⟩
          exact ⟨(List.replicate slots.length none).set i (some m), rfl, hmlen2, hmlget2⟩
        · intro habs; cases habs
        · intro _
          exact ⟨il.set i (r i).info, rfl, hilen2, hilget2⟩
        · intro habs; cases habs
      | none =>
        rw [hmrm] at hm
        have hmasked : masked = false := hm.symm
        subst hmasked
        have heq : assembleStep true
            { shape0 := none, slots := slots, maskSlots := none,
              infos := some il } i (r i)
            = Except.ok
              { shape0 := some (r i).arr.shape3,
                slots := slots.set i (some (r i).arr),
                maskSlots := none,
                infos := some (il.set i (r i).info) } := by
          simp [assembleStep, hmrm, hsh]
        refine ⟨_, heq, ?_⟩
        refine ⟨hsl, hslget, ?_, ?_, ?_, ?_, ?_⟩
        · dsimp only
          rw [if_neg hcons, hsh]
        · intro habs; cases habs
        · intro _; rfl
        · intro _
          exact ⟨il.set i (r i).info, rfl, hilen2, hilget2⟩
        · intro habs; cases habs
    · rw [if_neg hproc] at hshape
      subst hshape
      cases hmrm : (r i).mask with
      | some m =>
        rw [hmrm] at hm
        have hmasked : masked = true := hm.symm
        subst hmasked
        obtain ⟨_, hms2⟩ := hmaskT rfl
        obtain ⟨ml, hml, hmlen, hmlget⟩ := hms2 hproc
        subst hml
        obtain ⟨hmlen2, hmlget2⟩ :=
          listSet_procInv n (fun j => (r j).mask) none proc ml i hmlen hi hmlget
        rw [hmrm] at hmlen2 hmlget2
        have heq : assembleStep true
            { shape0 := some sh, slots := slots, maskSlots := some ml,
              infos := some il } i (r i)
            = Except.ok
              { shape0 := some sh,
                slots := slots.set i (some (r i).arr),
                maskSlots := some (ml.set i (some m)),
                infos := some (il.set i (r i).info) } := by
          simp [assembleStep, hmrm, hsh]
        refine ⟨_, heq, ?_⟩
        refine ⟨hsl, hslget, ?_, ?_, ?_, ?_, ?_⟩
        · dsimp only
          rw [if_neg hcons]
        · intro _
          refine ⟨fun habs => absurd habs hcons, fun _ => ?_⟩
          exact ⟨ml.set i (some m), rfl, hmlen2, hmlget2⟩
        · intro habs; cases habs
        · intro _
          exact ⟨il.set i (r i).info, rfl, hilen2, hilget2⟩
        · intro habs; cases habs
      | none =>
        rw [hmrm] at hm
        have hmasked : masked = false := hm.symm
        subst hmasked
        have hmsnone : ms = none := hmaskF rfl
        subst hmsnone
        have heq : assembleStep true
            { shape0 := some sh, slots := slots, maskSlots := none,
              infos := some il } i (r i)
            = Except.ok
              { shape0 := some sh,
                slots := slots.set i (some (r i).arr),
                maskSlots := none,
                infos := some (il.set i (r i).info) } := by
          simp [assembleStep, hmrm, hsh]
        refine ⟨_, heq, ?_⟩
        refine ⟨hsl, hslget, ?_, ?_, ?_, ?_, ?_⟩
        · dsimp only
          rw [if_neg hcons]
        · intro habs; cases habs
        · intro _; rfl
        · intro _
          exact ⟨il.set i (r i).info, rfl, hilen2, hilget2⟩
        · intro habs; cases habs
  | false =>
    have hinone : infos = none := hinfoF rfl
    subst hinone
    by_cases hproc : proc = []
    · subst hproc
      rw [if_pos rfl] at hshape
      subst hshape
      cases hmrm : (r i).mask with
      | some m =>
        rw [hmrm] at hm
        have hmasked : masked = true := hm.symm
        subst hmasked
        obtain ⟨hms, _⟩ := hmaskT rfl
        have hmsnone : ms = none := hms rfl
        subst hmsnone
        obtain ⟨hmlen2, hmlget2⟩ :=
          listSet_procInv n (fun j => (r j).mask) none []
            (List.replicate slots.length none) i
            (by rw [List.length_replicate]; exact hlen) hi hrep
        rw [hmrm] at hmlen2 hmlget2
        have heq : assembleStep false
            { shape0 := none, slots := slots, maskSlots := none,
              infos := none } i (r i)
            = Except.ok
              { shape0 := some (r i).arr.shape3,
                slots := slots.set i (some (r i).arr),
                maskSlots := some ((List.replicate slots.length none).set i (some m)),
                infos := none } := by
          simp [assembleStep, hmrm, hsh]
        refine ⟨_, heq, ?_⟩
        refine ⟨hsl, hslget, ?_, ?_, ?_, ?_, ?_⟩
        · dsimp only
          rw [if_neg hcons, hsh]
        · intro _
          refine ⟨fun habs => absurd habs hcons, fun _ => ?_⟩
          exact ⟨(List.replicate slots.length none).set i (some m), rfl, hmlen2, hmlget2⟩
        · intro habs; cases habs
        · intro habs; cases habs
        · intro _; rfl
      | none =>
        rw [hmrm] at hm
        have hmasked : masked = false := hm.symm
        subst hmasked
        have heq : assembleStep false
            { shape0 := none, slots := slots, maskSlots := none,
              infos := none } i (r i)
            = Except.ok
              { shape0 := some (r i).arr.shape3,
                slots := slots.set i (some (r i).arr),
                maskSlots := none,
                infos := none } := by
          simp [assembleStep, hmrm, hsh]
        refine ⟨_, heq, ?_⟩
        refine ⟨hsl, hslget, ?_, ?_, ?_, ?_, ?_⟩
        · dsimp only
          rw [if_neg hcons, hsh]
        · intro habs; cases habs
        · intro _; rfl
        · intro habs; cases habs
        · intro _; rfl
    · rw [if_neg hproc] at hshape
      subst hshape
      cases hmrm : (r i).mask with
      | some m =>
        rw [hmrm] at hm
        have hmasked : masked = true := hm.symm
        subst hmasked
        obtain ⟨_, hms2⟩ := hmaskT rfl
        obtain ⟨ml, hml, hmlen, hmlget⟩ := hms2 hproc
        subst hml
        obtain ⟨hmlen2, hmlget2⟩ :=
          listSet_procInv n (fun j => (r j).mask) none proc ml i hmlen hi hmlget
        rw [hmrm] at hmlen2 hmlget2
        have heq : assembleStep false
            { shape0 := some sh, slots := slots, maskSlots := some ml,
              infos := none } i (r i)
            = Except.ok
              { shape0 := some sh,
                slots := slots.set i (some (r i).arr),
                maskSlots := some (ml.set i (some m)),
                infos := none } := by
          simp [assembleStep, hmrm, hsh]
        refine ⟨_, heq, ?_⟩
        refine ⟨hsl, hslget, ?_, ?_, ?_, ?_, ?_⟩
        · dsimp only
          rw [if_neg hcons]
        · intro _
          refine ⟨fun habs => absurd habs hcons, fun _ => ?_⟩
          exact ⟨ml.set i (some m), rfl, hmlen2, hmlget2⟩
        · intro habs; cases habs
        · intro habs; cases habs
        · intro _; rfl
      | none =>
        rw [hmrm] at hm
        have hmasked : masked = false := hm.symm
        subst hmasked
        have hmsnone : ms = none := hmaskF rfl
        subst hmsnone
        have heq : assembleStep false
            { shape0 := some sh, slots := slots, maskSlots := none,
              infos := none } i (r i)
            = Except.ok
              { shape0 := some sh,
                slots := slots.set i (some (r i).arr),
                maskSlots := none,
                infos := none } := by
          simp [assembleStep, hmrm, hsh]
        refine ⟨_, heq, ?_⟩
        refine ⟨hsl, hslget, ?_, ?_, ?_, ?_, ?_⟩
        · dsimp only
          rw [if_neg hcons]
        · intro habs; cases habs
        · intro _; rfl
        · intro habs; cases habs
        · intro _; rfl

/-- The invariant only depends on the membership of the processed set. -/
theorem asmInv_mem_congr (ri : Bool) (n : Nat) (r : Nat → ItemOut)
    (sh : Nat × Nat × Nat) (masked : Bool) (p q : List Nat) (st : AsmState)
    (hpq : ∀ j, j ∈ p ↔ j ∈ q) (hInv : AsmInv ri n r sh masked p st) :
    AsmInv ri n r sh masked q st := by
  have hemp : (p = []) ↔ (q = []) := by
    constructor
    · intro h
      subst h
      refine List.eq_nil_iff_forall_not_mem.mpr ?_
      intro x hx
      exact List.not_mem_nil x ((hpq x).mpr hx)
    · intro h
      subst h
      refine List.eq_nil_iff_forall_not_mem.mpr ?_
      intro x hx
      exact List.not_mem_nil x ((hpq x).mp hx)
  have hif : ∀ {α : Type} (a b : α) (j : Nat),
      (if j ∈ p then a else b) = (if j ∈ q then a else b) := by
    intro α a b j
    by_cases hj : j ∈ p
    · rw [if_pos hj, if_pos ((hpq j).mp hj)]
    · rw [if_neg hj, if_neg (fun hq => hj ((hpq j).mpr hq))]
  obtain ⟨h1, h2, h3, h4, h5, h6, h7⟩ := hInv
  refine ⟨h1, ?_, ?_, ?_, h5, ?_, h7⟩
  · intro j hj
    exact (h2 j hj).trans (congrArg some (hif _ _ j))
  · rw [h3]
    by_cases hp : p = []
    · rw [if_pos hp, if_pos (hemp.mp hp)]
    · rw [if_neg hp, if_neg (fun hq => hp (hemp.mpr hq))]
  · intro hma
    obtain ⟨ha, hb⟩ := h4 hma
    refine ⟨fun hq => ha (hemp.mpr hq), fun hq => ?_⟩
    obtain ⟨ml, hml, hmlen, hmlget⟩ := hb (fun hp => hq (hemp.mp hp))
    exact ⟨ml, hml, hmlen, fun j hj => (hmlget j hj).trans (congrArg some (hif _ _ j))⟩
  · intro hri
    obtain ⟨il, hil, hilen, hilget⟩ := h6 hri
    exact ⟨il, hil, hilen, fun j hj => (hilget j hj).trans (congrArg some (hif _ _ j))⟩

/-- Running the assembly loop over any duplicate-free list of fresh,
in-range slot indices succeeds and extends the processed set by exactly
those indices. -/
theorem asmInv_loop (ri : Bool) (n : Nat) (r : Nat → ItemOut)
    (f : Nat → Except PyErr ItemOut) (sh : Nat × Nat × Nat) (masked : Bool)
    (hf : ∀ i, i < n → f i = .ok (r i))
    (hshp : ∀ i, i < n → (r i).arr.shape3 = sh)
    (hmk : ∀ i, i < n → ((r i).mask).isSome = masked) :
    ∀ (order proc : List Nat) (st : AsmState),
      AsmInv ri n r sh masked proc st →
      order.Nodup → (∀ i ∈ order, i < n) → (∀ i ∈ order, i ∉ proc) →
      ∃ st', asmLoop ri f order st = .ok st' ∧
        AsmInv ri n r sh masked (order ++ proc) st' := by
  intro order
  induction order with
  | nil =>
    intro proc st hInv _ _ _
    exact ⟨st, rfl, hInv⟩
  | cons i rest ih =>
    intro proc st hInv hnd hlt hnin
    have hi : i < n := hlt i (List.mem_cons_self i rest)
    obtain ⟨st1, hstep, hInv1⟩ := asmInv_step ri n r sh masked proc st i hInv hi
      (hnin i (List.mem_cons_self i rest)) (hshp i hi) (hmk i hi)
    obtain ⟨st', hloop, hInv'⟩ := ih (i :: proc) st1 hInv1
      (List.nodup_cons.mp hnd).2
      (fun j hj => hlt j (List.mem_cons_of_mem i hj))
      (by
        intro j hj
        rw [List.mem_cons]
        rintro (rfl | hjp)
        · exact (List.nodup_cons.mp hnd).1 hj
        · exact hnin j (List.mem_cons_of_mem i hj) hjp)
    refine ⟨st', ?_, ?_⟩
    · unfold asmLoop
      rw [hf i hi]
      dsimp only
      rw [hstep]
      dsimp only
      exact hloop
    · refine asmInv_mem_congr ri n r sh masked (rest ++ (i :: proc))
        ((i :: rest) ++ proc) st' ?_ hInv'
      intro j
      simp only [List.mem_append, List.mem_cons]
      tauto

/-- A list pinned by its length and entries is the corresponding
`range`-map. -/
theorem list_eq_ofFn {α : Type} (l : List α) (n : Nat) (g : Nat → α)
    (hlen : l.length = n) (hget : ∀ j, j < n → l.get? j = some (g j)) :
    l = (List.range n).map g := by
  apply List.ext
  intro idx
  by_cases hidx : idx < n
  · rw [hget idx hidx, List.get?_map, List.get?_range hidx]
    rfl
  · rw [List.get?_eq_none.mpr (by rw [hlen]; omega),
        List.get?_eq_none.mpr (by rw [List.length_map, List.length_range]; omega)]

/-- The assembly loop over any permutation of the slot indices yields
exactly the canonical fully-assembled state: slot contents are dictated
by slot index, not by completion order. -/
theorem asmLoop_canonical (ri : Bool) (n : Nat) (r : Nat → ItemOut)
    (f : Nat → Except PyErr ItemOut) (sh : Nat × Nat × Nat) (masked : Bool)
    (order : List Nat)
    (hf : ∀ i, i < n → f i = .ok (r i))
    (hshp : ∀ i, i < n → (r i).arr.shape3 = sh)
    (hmk : ∀ i, i < n → ((r i).mask).isSome = masked)
    (hnd : order.Nodup) (hlt : ∀ i ∈ order, i < n)
    (hall : ∀ i, i < n → i ∈ order) (hn : 0 < n) :
    asmLoop ri f order (initAsmState ri n)
      = .ok (canonicalStack ri n r sh masked) := by
  obtain ⟨st', hloop, hInv⟩ := asmInv_loop ri n r f sh masked hf hshp hmk
    order [] (initAsmState ri n) (asmInv_init ri n r sh masked) hnd hlt
    (fun i _ => List.not_mem_nil i)
  rw [List.append_nil] at hInv
  have hone : order ≠ [] := List.ne_nil_of_mem (hall 0 hn)
  obtain ⟨h1, h2, h3, h4, h5, h6, h7⟩ := hInv
  have hslots_eq : st'.slots = (List.range n).map (fun i => some (r i).arr) :=
    list_eq_ofFn _ n _ h1 (fun j hj => by rw [h2 j hj, if_pos (hall j hj)])
  have hshape_eq : st'.shape0 = some sh := by rw [h3, if_neg hone]
  have hms_eq : st'.maskSlots =
      (if masked then some ((List.range n).map (fun i => (r i).mask)) else none) := by
    cases masked with
    | true =>
      obtain ⟨ml, hml, hmlen, hmlget⟩ := (h4 rfl).2 hone
      rw [hml, if_pos rfl]
      congr 1
      exact list_eq_ofFn _ n _ hmlen
        (fun j hj => by rw [hmlget j hj, if_pos (hall j hj)])
    | false =>
      rw [h5 rfl, if_neg (by simp)]
  have hinf_eq : st'.infos =
      (if ri then some ((List.range n).map (fun i => (r i).info)) else none) := by
    cases ri with
    | true =>
      obtain ⟨il, hil, hilen, hilget⟩ := h6 rfl
      rw [hil, if_pos rfl]
      congr 1
      exact list_eq_ofFn _ n _ hilen
        (fun j hj => by rw [hilget j hj, if_pos (hall j hj)])
    | false =>
      rw [h7 rfl, if_neg (by simp)]
  rw [hloop]
  congr 1
  obtain ⟨s0, sl, msl, inf⟩ := st'
  dsimp only at hslots_eq hshape_eq hms_eq hinf_eq
  unfold canonicalStack
  rw [hslots_eq, hshape_eq, hms_eq, hinf_eq]

/-- Unfolding of `stack` once the pre-flight checks pass. -/
theorem stack_ok_unfold (client : RasterClient) (sc : SceneCollection)
    (bands : List String) (ctx : GeoCtx) (flatten : Option (Scene → Nat))
    (mn ma ri : Bool) (axS : Int) (order : List Nat) (cdt : Option String)
    (hne : sc.scenes ≠ []) (hb : bands ≠ [])
    (haxS : ¬(axS = 0 ∨ axS = -4))
    (hcdt : sc.commonDataType (stackCheckedBands bands mn ma) = .ok cdt) :
    SceneCollection.stack client sc bands ctx flatten mn ma axS ri order
      = (((stackItems flatten sc.scenes).map
            (fun it => (stackFetch client bands ctx mn ma (stackInnerAxis axS) ri it).1)).flatten,
         asmLoop ri
           (stackFetchAt client bands ctx mn ma (stackInnerAxis axS) ri
             (stackItems flatten sc.scenes))
           order (initAsmState ri (stackItems flatten sc.scenes).length)) := by
  have hbl : bandsToList bands = .ok bands := by
    unfold bandsToList
    rw [if_neg (by simpa using hb)]
  unfold SceneCollection.stack
  rw [if_neg (by simpa using hne), if_neg haxS]
  dsimp only
  rw [hbl]
  dsimp only
  rw [hcdt]

/-- **C1** (confirmed): for a non-empty collection passing the
pre-flight checks, with every (possibly flattened) item's fetch
succeeding with one shared shape and maskedness, `stack` succeeds for
*any* completion order that is a permutation of the item indices; the
output's first axis has one slot per item, slot `i` holds exactly the
array fetched for item `i` (and its mask), and `raster_infos[i]` is item
`i`'s metadata — slot assignment is by item index, independent of
completion order. -/
theorem stack_slots_match_items (client : RasterClient) (sc : SceneCollection)
    (bands : List String) (ctx : GeoCtx) (flatten : Option (Scene → Nat))
    (mn ma ri : Bool) (axS : Int) (cdt : Option String)
    (r : Nat → ItemOut) (sh : Nat × Nat × Nat) (masked : Bool) (order : List Nat)
    (hne : sc.scenes ≠ []) (hb : bands ≠ [])
    (haxS : ¬(axS = 0 ∨ axS = -4))
    (hcdt : sc.commonDataType (stackCheckedBands bands mn ma) = .ok cdt)
    (hf : ∀ i, i < (stackItems flatten sc.scenes).length →
      stackFetchAt client bands ctx mn ma (stackInnerAxis axS) ri
        (stackItems flatten sc.scenes) i = .ok (r i))
    (hshp : ∀ i, i < (stackItems flatten sc.scenes).length → (r i).arr.shape3 = sh)
    (hmk : ∀ i, i < (stackItems flatten sc.scenes).length →
      ((r i).mask).isSome = masked)
    (hnd : order.Nodup)
    (hlt : ∀ i ∈ order, i < (stackItems flatten sc.scenes).length)
    (hall : ∀ i, i < (stackItems flatten sc.scenes).length → i ∈ order) :
    ∃ st, (SceneCollection.stack client sc bands ctx flatten mn ma axS ri order).2
        = .ok st ∧
      st.slots.length = (stackItems flatten sc.scenes).length ∧
      (∀ i, i < (stackItems flatten sc.scenes).length →
        st.slots.get? i = some (some (r i).arr)) ∧
      (masked = true → ∃ ml, st.maskSlots = some ml ∧
        ml.length = (stackItems flatten sc.scenes).length ∧
        ∀ i, i < (stackItems flatten sc.scenes).length →
          ml.get? i = some ((r i).mask)) ∧
      (masked = false → st.maskSlots = none) ∧
      (ri = true → ∃ il, st.infos = some il ∧
        il.length = (stackItems flatten sc.scenes).length ∧
        ∀ i, i < (stackItems flatten sc.scenes).length →
          il.get? i = some ((r i).info)) := by
  have hn : 0 < (stackItems flatten sc.scenes).length :=
    List.length_pos.mpr (stackItems_ne_nil flatten sc.scenes hne)
  refine ⟨canonicalStack ri (stackItems flatten sc.scenes).length r sh masked,
    ?_, ?_, ?_, ?_, ?_, ?_⟩
  · rw [stack_ok_unfold client sc bands ctx flatten mn ma ri axS order cdt
      hne hb haxS hcdt]
    exact asmLoop_canonical ri _ r _ sh masked order hf hshp hmk hnd hlt hall hn
  · unfold canonicalStack
    dsimp only
    rw [List.length_map, List.length_range]
  · intro i hi
    unfold canonicalStack
    dsimp only
    rw [List.get?_map, List.get?_range hi]
    rfl
  · intro hma
    subst hma
    refine ⟨(List.range (stackItems flatten sc.scenes).length).map (fun i => (r i).mask),
      by unfold canonicalStack; rw [if_pos rfl],
      by rw [List.length_map, List.length_range], ?_⟩
    intro i hi
    rw [List.get?_map, List.get?_range hi]
    rfl
  · intro hma
    subst hma
    unfold canonicalStack
    rw [if_neg (by simp)]
  · intro hri
    subst hri
    refine ⟨(List.range (stackItems flatten sc.scenes).length).map (fun i => (r i).info),
      by unfold canonicalStack; rw [if_pos rfl],
      by rw [List.length_map, List.length_range], ?_⟩
    intro i hi
    rw [List.get?_map, List.get?_range hi]
    rfl

/-- Witness for `stack_slots_match_items`: two scenes, completion order
`[1, 0]` — the reverse of dispatch order. -/
theorem stack_slots_match_items_witness :
    ∃ st, (SceneCollection.stack wClient ⟨[wScene, wScene3]⟩ ["red"] wCtx none
        true true 1 true [1, 0]).2 = .ok st ∧
      st.slots.length = (stackItems none [wScene, wScene3]).length ∧
      (∀ i, i < (stackItems none [wScene, wScene3]).length →
        st.slots.get? i = some (some ((fun _ : Nat => wOut) i).arr)) ∧
      (true = true → ∃ ml, st.maskSlots = some ml ∧
        ml.length = (stackItems none [wScene, wScene3]).length ∧
        ∀ i, i < (stackItems none [wScene, wScene3]).length →
          ml.get? i = some (((fun _ : Nat => wOut) i).mask)) ∧
      (true = false → st.maskSlots = none) ∧
      (true = true → ∃ il, st.infos = some il ∧
        il.length = (stackItems none [wScene, wScene3]).length ∧
        ∀ i, i < (stackItems none [wScene, wScene3]).length →
          il.get? i = some (((fun _ : Nat => wOut) i).info)) :=
  stack_slots_match_items wClient ⟨[wScene, wScene3]⟩ ["red"] wCtx none
    true true true 1 (some "UInt16") (fun _ => wOut) (1, 1, 1) true [1, 0]
    (by decide) (by decide) (by decide) rfl
    (by
      intro i hi
      rcases i with _ | _ | i
      · exact rfl
      · exact rfl
      · exfalso
        rw [show (stackItems none ({ scenes := [wScene, wScene3] } : SceneCollection).scenes).length
          = 2 from rfl] at hi
        omega)
    (by
      intro i hi
      rcases i with _ | _ | i
      · exact rfl
      · exact rfl
      · exfalso
        rw [show (stackItems none ({ scenes := [wScene, wScene3] } : SceneCollection).scenes).length
          = 2 from rfl] at hi
        omega)
    (by
      intro i hi
      rcases i with _ | _ | i
      · exact rfl
      · exact rfl
      · exfalso
        rw [show (stackItems none ({ scenes := [wScene, wScene3] } : SceneCollection).scenes).length
          = 2 from rfl] at hi
        omega)
    (by decide) (by decide) (by decide)

/-- **C6** (confirmed): with the same per-item fetch results — all
succeeding, sharing one shape and one maskedness, as the per-item calls
with identical flags produce — the thread-pool path (any completion
order that is a permutation of the item indices) and the sequential
fallback path (completion order `0, 1, …, n-1`) of `stack` return
identical results: same stacked slots, same mask buffer, same
`raster_infos`, same request trace. -/
theorem stack_threaded_eq_sequential (client : RasterClient) (sc : SceneCollection)
    (bands : List String) (ctx : GeoCtx) (flatten : Option (Scene → Nat))
    (mn ma ri : Bool) (axS : Int) (cdt : Option String)
    (r : Nat → ItemOut) (sh : Nat × Nat × Nat) (masked : Bool) (order : List Nat)
    (hne : sc.scenes ≠ []) (hb : bands ≠ [])
    (haxS : ¬(axS = 0 ∨ axS = -4))
    (hcdt : sc.commonDataType (stackCheckedBands bands mn ma) = .ok cdt)
    (hf : ∀ i, i < (stackItems flatten sc.scenes).length →
      stackFetchAt client bands ctx mn ma (stackInnerAxis axS) ri
        (stackItems flatten sc.scenes) i = .ok (r i))
    (hshp : ∀ i, i < (stackItems flatten sc.scenes).length → (r i).arr.shape3 = sh)
    (hmk : ∀ i, i < (stackItems flatten sc.scenes).length →
      ((r i).mask).isSome = masked)
    (hnd : order.Nodup)
    (hlt : ∀ i ∈ order, i < (stackItems flatten sc.scenes).length)
    (hall : ∀ i, i < (stackItems flatten sc.scenes).length → i ∈ order) :
    SceneCollection.stack client sc bands ctx flatten mn ma axS ri order
      = SceneCollection.stack client sc bands ctx flatten mn ma axS ri
          (List.range (stackItems flatten sc.scenes).length) := by
  have hn : 0 < (stackItems flatten sc.scenes).length :=
    List.length_pos.mpr (stackItems_ne_nil flatten sc.scenes hne)
  rw [stack_ok_unfold client sc bands ctx flatten mn ma ri axS order cdt
        hne hb haxS hcdt,
      stack_ok_unfold client sc bands ctx flatten mn ma ri axS
        (List.range (stackItems flatten sc.scenes).length) cdt
        hne hb haxS hcdt]
  congr 1
  rw [asmLoop_canonical ri _ r _ sh masked order hf hshp hmk hnd hlt hall hn,
      asmLoop_canonical ri _ r _ sh masked
        (List.range (stackItems flatten sc.scenes).length) hf hshp hmk
        (List.nodup_range _)
        (fun i hi => List.mem_range.mp hi)
        (fun i hi => List.mem_range.mpr hi) hn]

/-- Witness for `stack_threaded_eq_sequential`: completion order
`[1, 0]` versus the sequential `[0, 1]`. -/
theorem stack_threaded_eq_sequential_witness :
    SceneCollection.stack wClient ⟨[wScene, wScene3]⟩ ["red"] wCtx none
        true true 1 true [1, 0]
      = SceneCollection.stack wClient ⟨[wScene, wScene3]⟩ ["red"] wCtx none
          true true 1 true
          (List.range (stackItems none [wScene, wScene3]).length) :=
  stack_threaded_eq_sequential wClient ⟨[wScene, wScene3]⟩ ["red"] wCtx none
    true true true 1 (some "UInt16") (fun _ => wOut) (1, 1, 1) true [1, 0]
    (by decide) (by decide) (by decide) rfl
    (by
      intro i hi
      rcases i with _ | _ | i
      · exact rfl
      · exact rfl
      · exfalso
        rw [show (stackItems none ({ scenes := [wScene, wScene3] } : SceneCollection).scenes).length
          = 2 from rfl] at hi
        omega)
    (by
      intro i hi
      rcases i with _ | _ | i
      · exact rfl
      · exact rfl
      · exfalso
        rw [show (stackItems none ({ scenes := [wScene, wScene3] } : SceneCollection).scenes).length
          = 2 from rfl] at hi
        omega)
    (by
      intro i hi
      rcases i with _ | _ | i
      · exact rfl
      · exact rfl
      · exfalso
        rw [show (stackItems none ({ scenes := [wScene, wScene3] } : SceneCollection).scenes).length
          = 2 from rfl] at hi
        omega)
    (by decide) (by decide) (by decide)

end DL
